import Mathlib

/-!
Shallow embedding of the ai-gateway-litellm operator's reconciliation core:
the config renderers (`generateAiGatewayConfig`, `LiteLLMGenerator.Generate`),
the equality utilities (`internal/equality`), the per-resource reconcile steps
for ConfigMap/Deployment/Service of both controller variants (AiGateway and
ModelRouter), the class-ownership filter, and the top-level `Reconcile` loops.

Go maps are modelled as `Option` association lists (`none` models a nil map,
`some l` a non-nil map whose entries are the key-value pairs of `l` with the
leftmost binding of a key the visible one).  Go strings are Lean `String`s;
byte-level operations (SHA-256, `%x` formatting, `[:16]` slicing) act on the
UTF-8 encoding, computed explicitly.  Machine integers (`int32` ports and
replica counts) are modelled as `Int`; none of the embedded code paths can
overflow them.  Kubernetes API calls are modelled by explicit cluster state
plus injectable fault flags; each reconcile step returns the new state, the
list of issued writes, and an optional error string.
-/

namespace Gateway

/-- One key-value binding list standing for the contents of a Go map. -/
abbrev LabelList := List (String × String)

/-- A Go `map[string]string`: `none` is a nil map. -/
abbrev GoMap := Option LabelList

/-- Leftmost binding of `k`, mirroring Go map lookup on the entry list. -/
def lookupL (l : LabelList) (k : String) : Option String :=
  match l with
  | [] => none
  | (k', v) :: rest => if k' = k then some v else lookupL rest k

/-- Go map assignment `m[k] = v`: replace the binding if present, else append. -/
def insertL (l : LabelList) (k : String) (v : String) : LabelList :=
  match l with
  | [] => [(k, v)]
  | (k', v') :: rest => if k' = k then (k, v) :: rest else (k', v') :: insertL rest k v

/-- Go map indexing `m[k]` through a possibly nil map (comma-ok form). -/
def lookupGo (m : GoMap) (k : String) : Option String :=
  match m with
  | none => none
  | some l => lookupL l k

/-- Go map indexing `m[k]` returning the zero value `""` when absent. -/
def getGo (m : GoMap) (k : String) : String :=
  (lookupGo m k).getD ""

/-- The merge loop `for k, v := range src { dst[k] = v }`, after
`if dst == nil { dst = make(...) }`; the result is never nil. -/
def insertAllGo (dst : GoMap) (src : GoMap) : GoMap :=
  some ((src.getD []).foldl (fun acc kv => insertL acc kv.1 kv.2) (dst.getD []))

/-- `equality.RequiredLabelsPresent`: every required key is present in
`existing` with the same value (ranging over a nil map visits nothing). -/
def RequiredLabelsPresent (existing required : GoMap) : Bool :=
  (required.getD []).all (fun kv => lookupGo existing kv.1 == some kv.2)

/-- Set of keys visible in a map (leftmost-binding semantics). -/
def goKeys (m : GoMap) : List String :=
  (m.getD []).map Prod.fst

/-- `equality.LabelsEqual` (`cmp.Equal` on maps): a nil map differs from an empty one,
otherwise the maps agree on every key of either side. -/
def LabelsEqual (a b : GoMap) : Bool :=
  match a, b with
  | none, none => true
  | some la, some lb =>
      (la.map Prod.fst ++ lb.map Prod.fst).all
        (fun k => lookupL la k == lookupL lb k)
  | _, _ => false

/-! ### Strings and bytes

Go `strings.ToUpper` / `strings.ToLower` are modelled on the ASCII range
(the range every provider string in the repository's tests and samples lies
in); `[]byte(s)` is the explicit UTF-8 encoding; `s[:n]` on the ASCII hex
output of `%x` is a `take` on characters (one byte per character there). -/

/-- Model of `strings.ToLower`. -/
def lowerStr (s : String) : String := ⟨s.data.map Char.toLower⟩

/-- Model of `strings.ToUpper`. -/
def upperStr (s : String) : String := ⟨s.data.map Char.toUpper⟩

theorem toNat_ofNat_small {n : Nat} (h : n < 55296) : (Char.ofNat n).toNat = n := by
  rw [Char.ofNat, dif_pos (Or.inl h)]
  simp [Char.ofNatAux, Char.toNat, UInt32.toNat, BitVec.ofNatLt]

/-- Lowercasing first does not change the result of uppercasing (ASCII). -/
theorem toUpper_toLower (c : Char) : (c.toLower).toUpper = c.toUpper := by
  unfold Char.toLower Char.toUpper
  by_cases h : c.toNat ≥ 65 ∧ c.toNat ≤ 90
  · rw [if_pos h]
    have h1 : (Char.ofNat (c.toNat + 32)).toNat = c.toNat + 32 :=
      toNat_ofNat_small (by omega)
    simp only [h1]
    rw [if_pos (by omega), if_neg (by omega)]
    have h2 : c.toNat + 32 - 32 = c.toNat := by omega
    rw [h2, Char.ofNat_toNat]
  · rw [if_neg h]

theorem upperStr_lowerStr (s : String) : upperStr (lowerStr s) = upperStr s := by
  simp only [upperStr, lowerStr, List.map_map]
  congr 1
  exact List.map_congr_left (fun c _ => toUpper_toLower c)

/-- UTF-8 encoding of one scalar value, as byte values. -/
def utf8Bytes (c : Nat) : List Nat :=
  if c < 128 then [c]
  else if c < 2048 then [192 + c / 64, 128 + c % 64]
  else if c < 65536 then [224 + c / 4096, 128 + (c / 64) % 64, 128 + c % 64]
  else [240 + c / 262144, 128 + (c / 4096) % 64, 128 + (c / 64) % 64, 128 + c % 64]

/-- Model of Go's `[]byte(s)`: the UTF-8 bytes of the string. -/
def strBytes (s : String) : List Nat := s.data.flatMap (fun c => utf8Bytes c.toNat)

/-- Model of Go string slicing `s[:n]` for strings of single-byte characters. -/
def goTake (s : String) (n : Nat) : String := ⟨s.data.take n⟩

/-! ### SHA-256 (`crypto/sha256`), on byte lists, words as `Nat` mod `2^32` -/

/-- Truncate to a 32-bit word. -/
def w32 (n : Nat) : Nat := n % 4294967296

/-- Rotate a 32-bit word right by `n` bits. -/
def rotr32 (x n : Nat) : Nat := w32 ((x >>> n) ||| (x <<< (32 - n)))

/-- Bitwise complement of a 32-bit word. -/
def bnot32 (x : Nat) : Nat := x ^^^ 4294967295

def shaCh (x y z : Nat) : Nat := (x &&& y) ^^^ (bnot32 x &&& z)

def shaMaj (x y z : Nat) : Nat := (x &&& y) ^^^ (x &&& z) ^^^ (y &&& z)

def bsig0 (x : Nat) : Nat := rotr32 x 2 ^^^ rotr32 x 13 ^^^ rotr32 x 22

def bsig1 (x : Nat) : Nat := rotr32 x 6 ^^^ rotr32 x 11 ^^^ rotr32 x 25

def ssig0 (x : Nat) : Nat := rotr32 x 7 ^^^ rotr32 x 18 ^^^ (x >>> 3)

def ssig1 (x : Nat) : Nat := rotr32 x 17 ^^^ rotr32 x 19 ^^^ (x >>> 10)

/-- The 64 SHA-256 round constants. -/
def sha256K : List Nat :=
  [1116352408, 1899447441, 3049323471, 3921009573, 961987163,
   1508970993, 2453635748, 2870763221, 3624381080, 310598401,
   607225278, 1426881987, 1925078388, 2162078206, 2614888103,
   3248222580, 3835390401, 4022224774, 264347078, 604807628,
   770255983, 1249150122, 1555081692, 1996064986, 2554220882,
   2821834349, 2952996808, 3210313671, 3336571891, 3584528711,
   113926993, 338241895, 666307205, 773529912, 1294757372,
   1396182291, 1695183700, 1986661051, 2177026350, 2456956037,
   2730485921, 2820302411, 3259730800, 3345764771, 3516065817,
   3600352804, 4094571909, 275423344, 430227734, 506948616,
   659060556, 883997877, 958139571, 1322822218, 1537002063,
   1747873779, 1955562222, 2024104815, 2227730452, 2361852424,
   2428436474, 2756734187, 3204031479, 3329325298]

/-- 8-byte big-endian encoding. -/
def be8 (n : Nat) : List Nat :=
  [56, 48, 40, 32, 24, 16, 8, 0].map (fun s => (n >>> s) % 256)

/-- 4-byte big-endian encoding of a 32-bit word. -/
def be4 (n : Nat) : List Nat :=
  [(n >>> 24) % 256, (n >>> 16) % 256, (n >>> 8) % 256, n % 256]

/-- SHA-256 padding: `0x80`, zeros to 56 mod 64, 8-byte bit length. -/
def sha256Pad (msg : List Nat) : List Nat :=
  msg ++ 128 :: List.replicate ((119 - msg.length % 64) % 64) 0 ++ be8 (msg.length * 8)

/-- Split into successive 64-byte blocks. -/
def chunks64 (l : List Nat) : List (List Nat) :=
  if h : l = [] then [] else l.take 64 :: chunks64 (l.drop 64)
termination_by l.length
decreasing_by
  simp only [List.length_drop]
  have : 0 < l.length := List.length_pos.mpr h
  omega

/-- Big-endian 32-bit words from bytes. -/
def toWords : List Nat → List Nat
  | b0 :: b1 :: b2 :: b3 :: rest => (((b0 * 256 + b1) * 256 + b2) * 256 + b3) :: toWords rest
  | _ => []

/-- Extend the (reversed) message schedule by `n` further words. -/
def extendRounds : Nat → List Nat → List Nat
  | 0, acc => acc
  | n + 1, acc =>
      let nw := w32 (ssig1 (acc.getD 1 0) + acc.getD 6 0 + ssig0 (acc.getD 14 0) + acc.getD 15 0)
      extendRounds n (nw :: acc)

/-- The 64-word message schedule of one block. -/
def messageSchedule (chunk : List Nat) : List Nat :=
  (extendRounds 48 (toWords chunk).reverse).reverse

/-- The eight SHA-256 working variables. -/
structure Hash8 where
  a : Nat
  b : Nat
  c : Nat
  d : Nat
  e : Nat
  f : Nat
  g : Nat
  h : Nat
  deriving Repr, DecidableEq

/-- One round of the compression function. -/
def compressRound (s : Hash8) (kw : Nat × Nat) : Hash8 :=
  let t1 := w32 (s.h + bsig1 s.e + shaCh s.e s.f s.g + kw.1 + kw.2)
  let t2 := w32 (bsig0 s.a + shaMaj s.a s.b s.c)
  ⟨w32 (t1 + t2), s.a, s.b, s.c, w32 (s.d + t1), s.e, s.f, s.g⟩

/-- Process one 64-byte block. -/
def compressChunk (hs : Hash8) (chunk : List Nat) : Hash8 :=
  let s := (sha256K.zip (messageSchedule chunk)).foldl compressRound hs
  ⟨w32 (hs.a + s.a), w32 (hs.b + s.b), w32 (hs.c + s.c), w32 (hs.d + s.d),
   w32 (hs.e + s.e), w32 (hs.f + s.f), w32 (hs.g + s.g), w32 (hs.h + s.h)⟩

def sha256Init : Hash8 :=
  ⟨1779033703, 3144134277, 1013904242, 2773480762,
   1359893119, 2600822924, 528734635, 1541459225⟩

/-- SHA-256 digest (32 bytes) of a byte list; model of `sha256.Sum256`. -/
def sha256Bytes (msg : List Nat) : List Nat :=
  let hs := (chunks64 (sha256Pad msg)).foldl compressChunk sha256Init
  [hs.a, hs.b, hs.c, hs.d, hs.e, hs.f, hs.g, hs.h].flatMap be4

/-- Lowercase hex digit, as produced by `fmt.Sprintf` with the `%x` verb. -/
def hexDigit (n : Nat) : Char := if n < 10 then Char.ofNat (48 + n) else Char.ofNat (87 + n)

def hexByte (b : Nat) : List Char := [hexDigit (b / 16), hexDigit (b % 16)]

/-- Model of `fmt.Sprintf` with `%x` on a byte array. -/
def hexOfBytes (bs : List Nat) : String := ⟨bs.flatMap hexByte⟩

/-- The 16-character configuration hash: `fmt.Sprintf` `%x` of the SHA-256
digest, sliced to the first 16 bytes, shared by both controller variants. -/
def configHashOf (configYAML : String) : String :=
  goTake (hexOfBytes (sha256Bytes (strBytes configYAML))) 16

/-! ### Go string ordering

Go's `<` on strings compares bytes lexicographically; on UTF-8 encoded text
this coincides with comparing the scalar values character by character, so
it is modelled here on the character lists. -/

/-- Lexicographic strict order on character lists by scalar value. -/
def goStrLtb : List Char → List Char → Bool
  | [], [] => false
  | [], _ :: _ => true
  | _ :: _, [] => false
  | a :: as, b :: bs =>
      if a.toNat < b.toNat then true
      else if b.toNat < a.toNat then false
      else goStrLtb as bs

/-- Model of Go `a < b` on strings. -/
def goLtb (a b : String) : Bool := goStrLtb a.data b.data

/-- Model of Go `!(b < a)`, the matching non-strict order. -/
def goLeb (a b : String) : Bool := !(goLtb b a)

theorem charToNat_inj {a b : Char} (h : a.toNat = b.toNat) : a = b := by
  have ha := Char.ofNat_toNat a
  rw [← ha, h, Char.ofNat_toNat]

theorem goStrLtb_irrefl (l : List Char) : goStrLtb l l = false := by
  induction l with
  | nil => rfl
  | cons a as ih => simp [goStrLtb, ih]

theorem goStrLtb_asymm : ∀ {x y : List Char},
    goStrLtb x y = true → goStrLtb y x = false := by
  intro x
  induction x with
  | nil =>
      intro y h
      cases y with
      | nil => exact absurd h (by simp [goStrLtb])
      | cons b bs => rfl
  | cons a as ih =>
      intro y h
      cases y with
      | nil => exact absurd h (by simp [goStrLtb])
      | cons b bs =>
          simp only [goStrLtb] at h ⊢
          by_cases hab : a.toNat < b.toNat
          · rw [if_neg (by omega), if_pos hab]
          · rw [if_neg hab] at h
            by_cases hba : b.toNat < a.toNat
            · rw [if_pos hba] at h
              exact absurd h (by simp)
            · rw [if_neg hba] at h
              rw [if_neg hba, if_neg hab]
              exact ih h

theorem goStrLtb_eq_of_not : ∀ {x y : List Char},
    goStrLtb x y = false → goStrLtb y x = false → x = y := by
  intro x
  induction x with
  | nil =>
      intro y h1 _
      cases y with
      | nil => rfl
      | cons b bs => exact absurd h1 (by simp [goStrLtb])
  | cons a as ih =>
      intro y h1 h2
      cases y with
      | nil => exact absurd h2 (by simp [goStrLtb])
      | cons b bs =>
          simp only [goStrLtb] at h1 h2
          by_cases hab : a.toNat < b.toNat
          · rw [if_pos hab] at h1
            exact absurd h1 (by simp)
          · by_cases hba : b.toNat < a.toNat
            · rw [if_pos hba] at h2
              exact absurd h2 (by simp)
            · rw [if_neg hab, if_neg hba] at h1
              rw [if_neg hba, if_neg hab] at h2
              rw [charToNat_inj (by omega : a.toNat = b.toNat), ih h1 h2]

theorem goStrLtb_trans : ∀ {x y z : List Char},
    goStrLtb x y = true → goStrLtb y z = true → goStrLtb x z = true := by
  intro x
  induction x with
  | nil =>
      intro y z h1 h2
      cases z with
      | nil =>
          cases y with
          | nil => exact absurd h2 (by simp [goStrLtb])
          | cons b bs => exact absurd h2 (by simp [goStrLtb])
      | cons c cs => rfl
  | cons a as ih =>
      intro y z h1 h2
      cases y with
      | nil => exact absurd h1 (by simp [goStrLtb])
      | cons b bs =>
          cases z with
          | nil => exact absurd h2 (by simp [goStrLtb])
          | cons c cs =>
              simp only [goStrLtb] at h1 h2 ⊢
              by_cases hab : a.toNat < b.toNat
              · by_cases hbc : b.toNat < c.toNat
                · rw [if_pos (by omega)]
                · rw [if_neg hbc] at h2
                  by_cases hcb : c.toNat < b.toNat
                  · rw [if_pos hcb] at h2
                    exact absurd h2 (by simp)
                  · rw [if_pos (by omega)]
              · rw [if_neg hab] at h1
                by_cases hba : b.toNat < a.toNat
                · rw [if_pos hba] at h1
                  exact absurd h1 (by simp)
                · rw [if_neg hba] at h1
                  by_cases hbc : b.toNat < c.toNat
                  · rw [if_pos (by omega)]
                  · rw [if_neg hbc] at h2
                    by_cases hcb : c.toNat < b.toNat
                    · rw [if_pos hcb] at h2
                      exact absurd h2 (by simp)
                    · rw [if_neg hcb] at h2
                      rw [if_neg (by omega), if_neg (by omega)]
                      exact ih h1 h2

theorem goLeb_total (a b : String) : goLeb a b = true ∨ goLeb b a = true := by
  by_cases h : goLtb b a = true
  · right
    have := goStrLtb_asymm h
    simp [goLeb, goLtb, this]
  · left
    simp [goLeb]
    exact Bool.eq_false_iff.mpr h

theorem goLeb_trans {a b c : String} (h1 : goLeb a b = true) (h2 : goLeb b c = true) :
    goLeb a c = true := by
  simp only [goLeb, Bool.not_eq_true', Bool.not_eq_true] at h1 h2 ⊢
  by_contra hca
  have hca' : goLtb c a = true := by
    cases h : goLtb c a
    · exact absurd h hca
    · rfl
  by_cases hab : goLtb a b = true
  · have := goStrLtb_trans hca' hab
    rw [show goStrLtb c.data b.data = goLtb c b from rfl, h2] at this
    exact absurd this (by simp)
  · have hab' : goStrLtb a.data b.data = false := by
      cases h : goLtb a b
      · exact h
      · exact absurd h hab
    have hba' : goStrLtb b.data a.data = false := h1
    have : a.data = b.data := goStrLtb_eq_of_not hab' hba'
    have hstr : a = b := by
      cases a
      cases b
      exact congrArg String.mk this
    rw [hstr] at hca
    exact hca h2

theorem goLeb_antisymm {a b : String} (h1 : goLeb a b = true) (h2 : goLeb b a = true) :
    a = b := by
  simp only [goLeb, Bool.not_eq_true'] at h1 h2
  have : a.data = b.data := goStrLtb_eq_of_not h2 h1
  cases a
  cases b
  exact congrArg String.mk this

/-! ### LiteLLM configuration structs and their YAML form

`yaml.Marshal` output of the fixed `LiteLLMConfig` shape, emitted with plain
scalars in block style, matching `gopkg.in/yaml.v2` on the field tags
`model_list`, `model_name`, `litellm_params`, `model`, `api_key,omitempty`,
`litellm_settings,omitempty`, `request_timeout,omitempty`. -/

structure LiteLLMParams where
  model : String
  apiKey : String
  deriving Repr, DecidableEq

structure ModelConfig where
  modelName : String
  litellmParams : LiteLLMParams
  deriving Repr, DecidableEq

structure LiteLLMConfig where
  modelList : List ModelConfig
  requestTimeout : Int
  deriving Repr, DecidableEq

/-- One `model_list` entry in block style; `api_key` is omitted when empty. -/
def yamlModelEntry (m : ModelConfig) : String :=
  "- model_name: " ++ m.modelName ++ "\n  litellm_params:\n    model: " ++
    m.litellmParams.model ++
    (if m.litellmParams.apiKey = "" then "" else "\n    api_key: " ++ m.litellmParams.apiKey) ++
    "\n"

/-- `yaml.Marshal` of a `LiteLLMConfig` value. -/
def yamlMarshal (c : LiteLLMConfig) : String :=
  (if c.modelList.isEmpty then "model_list: []\n"
   else "model_list:\n" ++ String.join (c.modelList.map yamlModelEntry)) ++
  (if c.requestTimeout = 0 then ""
   else "litellm_settings:\n  request_timeout: " ++ toString c.requestTimeout ++ "\n")

/-! ### Shared constants (`internal/constants`) -/

def ControllerName : String := "aigateway.agentic-layer.ai/ai-gateway-litellm-controller"

def TypeLitellm : String := "litellm"

def DefaultRequestTimeout : Int := 600

def DefaultSecretName : String := "api-key-secrets"

def configHashAnnKey : String := "gateway.agentic-layer.ai/config-hash"

/-! ### Environment variables (`corev1.EnvVar` as the controllers build them) -/

structure SecretKeySelector where
  secretName : String
  key : String
  optional : Option Bool
  deriving Repr, DecidableEq

structure EnvVar where
  name : String
  value : String
  valueFrom : Option SecretKeySelector
  deriving Repr, DecidableEq

/-- Order used by `equality.EnvVarsEqual` (sort by `Name`, Go `<`). -/
def envVarLe (a b : EnvVar) : Prop := goLeb a.name b.name = true

instance : DecidableRel envVarLe :=
  fun a b => inferInstanceAs (Decidable (goLeb a.name b.name = true))

/-- `equality.EnvVarsEqual`: order-insensitive equality via sorting by name. -/
def EnvVarsEqual (existing desired : List EnvVar) : Bool :=
  decide (List.insertionSort envVarLe existing = List.insertionSort envVarLe desired)

/-! ### AI model lists and their comparators (two variants) -/

namespace AG

/-- `AiModel` of the AiGateway variant: explicit `name` and `provider`. -/
structure AiModel where
  name : String
  provider : String
  deriving Repr, DecidableEq

/-- Sort order of the (provider, name) comparator variant (Go `<`). -/
def aiModelLe (a b : AiModel) : Prop :=
  goLtb a.provider b.provider = true ∨
    (a.provider = b.provider ∧ goLeb a.name b.name = true)

instance : DecidableRel aiModelLe := fun a b =>
  inferInstanceAs (Decidable (goLtb a.provider b.provider = true ∨
    (a.provider = b.provider ∧ goLeb a.name b.name = true)))

/-- `equality.AiModelsEqual`, (provider, name)-sorted variant; a nil slice is
`none` and differs from a present empty slice. -/
def AiModelsEqual (existing desired : Option (List AiModel)) : Bool :=
  match existing, desired with
  | none, none => true
  | some a, some b =>
      decide (List.insertionSort aiModelLe a = List.insertionSort aiModelLe b)
  | _, _ => false

end AG

namespace MR

/-- `AiModel` of the ModelRouter variant: a single `name` field carrying the
`provider/model` string. -/
structure AiModel where
  name : String
  deriving Repr, DecidableEq

/-- Sort order of the name-sorted comparator variant (Go `<`). -/
def aiModelLe (a b : AiModel) : Prop := goLeb a.name b.name = true

instance : DecidableRel aiModelLe :=
  fun a b => inferInstanceAs (Decidable (goLeb a.name b.name = true))

/-- `equality.AiModelsEqual`, name-sorted variant. -/
def AiModelsEqual (existing desired : Option (List AiModel)) : Bool :=
  match existing, desired with
  | none, none => true
  | some a, some b =>
      decide (List.insertionSort aiModelLe a = List.insertionSort aiModelLe b)
  | _, _ => false

/-- The `switch provider` statement of `mapModelToLiteLLMFormat`: the fixed
provider table, with `upper(provider) + "_API_KEY"` as the default case. -/
def providerApiKeyTable (provider : String) : String :=
  if provider = "openai" then "OPENAI_API_KEY"
  else if provider = "azure" then "AZURE_API_KEY"
  else if provider = "gemini" then "GEMINI_API_KEY"
  else if provider = "anthropic" then "ANTHROPIC_API_KEY"
  else if provider = "bedrock" then "AWS_ACCESS_KEY_ID"
  else if provider = "ollama" then ""
  else if provider = "huggingface" then "HUGGINGFACE_API_KEY"
  else upperStr provider ++ "_API_KEY"

/-- `LiteLLMGenerator.mapModelToLiteLLMFormat`: the model string is used as
given; for a non-empty name the API-key variable is derived from the
lowercased text before the first `/` (or the whole name) via the table. -/
def mapModelToLiteLLMFormat (modelName : String) : String × String :=
  let litellmModel := modelName
  if modelName.data = [] then (litellmModel, "")
  else
    (litellmModel,
     providerApiKeyTable (lowerStr ⟨modelName.data.takeWhile (fun c => c ≠ '/')⟩))

end MR

/-! ### Child-resource object shapes (the fields the controllers read or write) -/

structure ContainerPort where
  name : String
  containerPort : Int
  protocol : String
  deriving Repr, DecidableEq

instance : Inhabited ContainerPort := ⟨⟨"", 0, ""⟩⟩

structure VolumeMount where
  name : String
  mountPath : String
  readOnly : Bool
  deriving Repr, DecidableEq

structure Volume where
  name : String
  configMapName : String
  deriving Repr, DecidableEq

structure Container where
  name : String
  image : String
  ports : List ContainerPort
  volumeMounts : List VolumeMount
  command : List String
  env : List EnvVar
  deriving Repr, DecidableEq

instance : Inhabited Container := ⟨⟨"", "", [], [], [], []⟩⟩

structure PodSpec where
  containers : List Container
  volumes : List Volume
  deriving Repr, DecidableEq

structure PodTemplate where
  labels : GoMap
  annotations : GoMap
  spec : PodSpec
  deriving Repr, DecidableEq

structure DeploymentObj where
  labels : GoMap
  replicas : Int
  selector : GoMap
  template : PodTemplate
  deriving Repr, DecidableEq

structure ConfigMapObj where
  labels : GoMap
  data : GoMap
  deriving Repr, DecidableEq

structure ServicePort where
  name : String
  port : Int
  targetPort : Int
  protocol : String
  deriving Repr, DecidableEq

instance : Inhabited ServicePort := ⟨⟨"", 0, 0, ""⟩⟩

structure ServiceObj where
  labels : GoMap
  selector : GoMap
  ports : List ServicePort
  svcType : String
  deriving Repr, DecidableEq

/-- The children of one gateway object visible in the cluster. -/
structure ClusterState where
  configMap : Option ConfigMapObj
  deployment : Option DeploymentObj
  service : Option ServiceObj
  deriving Repr, DecidableEq

/-- A mutation issued against the cluster API. -/
inductive Write where
  | createConfigMap
  | updateConfigMap
  | createDeployment
  | updateDeployment
  | createService
  | updateService
  deriving Repr, DecidableEq

/-- Injectable failures of the cluster API, one flag per call site kind. -/
structure ApiFaults where
  cmGet : Bool
  cmWrite : Bool
  depGet : Bool
  depWrite : Bool
  svcGet : Bool
  svcWrite : Bool
  statusWrite : Bool
  deriving Repr, DecidableEq

def noFaults : ApiFaults := ⟨false, false, false, false, false, false, false⟩

/-- Result of one per-resource reconcile step: new state of that resource,
issued writes, and the returned error. -/
structure RecStep (σ : Type) where
  state : σ
  writes : List Write
  err : Option String
  deriving Repr

/-- `metav1.Condition` without the timestamp (wall-clock time is not part of
the embedding; `LastTransitionTime` is written on every change). -/
structure Condition where
  ctype : String
  cstatus : String
  reason : String
  message : String
  deriving Repr, DecidableEq

/-- `updateCondition`: overwrite the first condition of the same type in
place, append a new type at the end. -/
def updateCondition (conds : List Condition) (c : Condition) : List Condition :=
  match conds with
  | [] => [c]
  | e :: rest => if e.ctype = c.ctype then c :: rest else e :: updateCondition rest c

/-- Condition lookup by type. -/
def getCondition (conds : List Condition) (t : String) : Option Condition :=
  conds.find? (fun c => c.ctype == t)

/-- Outcome of fetching the triggering object at the start of a pass. -/
inductive FetchResult (α : Type) where
  | found (x : α)
  | notFound
  | getFailed
  deriving Repr

/-- The status-subresource update: the sole error a successful pass returns. -/
def updateStatusErr (f : ApiFaults) : Option String :=
  if f.statusWrite then some "status update failed" else none

/-- Secret-backed optional environment variable for one API-key name. -/
def mkSecretEnvVar (envVarName : String) : EnvVar :=
  { name := envVarName, value := "",
    valueFrom := some { secretName := DefaultSecretName, key := envVarName, optional := some true } }

/-- Deduplicating collection loop over a Go `map[string]bool` used as a set,
modelled in first-insertion order (Go iteration order is unspecified; every
consumer of this list compares it order-insensitively). -/
def dedupKeys (keys : List String) : List String :=
  keys.foldl (fun acc e => if e ≠ "" ∧ e ∉ acc then acc ++ [e] else acc) []

/-! ### AiGateway controller (`internal/controller/aigateway_controller.go`) -/

namespace AG

structure AiGatewaySpec where
  port : Int
  aiModels : List AiModel
  aiGatewayClassName : String
  deriving Repr, DecidableEq

structure AiGateway where
  name : String
  spec : AiGatewaySpec
  conditions : List Condition
  deriving Repr, DecidableEq

structure AiGatewayClass where
  name : String
  controller : String
  annotations : GoMap
  deriving Repr, DecidableEq

def defaultClassAnnKey : String := "aigatewayclass.kubernetes.io/is-default-class"

/-- `shouldProcessAiGateway` given the listed classes (`listErr` true models a
failed `List` call). -/
def shouldProcessAiGateway (classes : List AiGatewayClass) (listErr : Bool)
    (g : AiGateway) : Bool :=
  if listErr then false
  else
    let litellmClasses := classes.filter (fun c => c.controller == ControllerName)
    let byName := g.spec.aiGatewayClassName != "" &&
      litellmClasses.any (fun c => c.name == g.spec.aiGatewayClassName)
    byName || litellmClasses.any (fun c => getGo c.annotations defaultClassAnnKey == "true")

/-- `getProviderApiKeyEnvVar`: unconditional `upper(provider) + "_API_KEY"`. -/
def getProviderApiKeyEnvVar (m : AiModel) : String :=
  upperStr m.provider ++ "_API_KEY"

/-- `generateAiGatewayConfig`: serialized YAML and its 16-character hash
(the `yaml.Marshal` error branch is unreachable for this fixed struct). -/
def generateAiGatewayConfig (g : AiGateway) : String × String :=
  let modelList := g.spec.aiModels.map (fun m =>
    { modelName := m.name,
      litellmParams := { model := m.provider ++ "/" ++ m.name,
                         apiKey := "os.environ/" ++ getProviderApiKeyEnvVar m } : ModelConfig })
  let configYAML := yamlMarshal { modelList := modelList, requestTimeout := DefaultRequestTimeout }
  (configYAML, configHashOf configYAML)

/-- `buildEnvironmentVariables`: fixed log level plus one optional
secret-backed variable per distinct non-empty API-key name. -/
def buildEnvironmentVariables (g : AiGateway) : List EnvVar :=
  { name := "LITELLM_LOG", value := "INFO", valueFrom := none } ::
    (dedupKeys (g.spec.aiModels.map getProviderApiKeyEnvVar)).map mkSecretEnvVar

/-- The ConfigMap value constructed at the top of `reconcileConfigMap`. -/
def desiredConfigMap (g : AiGateway) (configData : String) : ConfigMapObj :=
  { labels := some [("app", g.name)],
    data := some [("config.yaml", configData)] }

/-- The Deployment value constructed at the top of `reconcileDeployment`. -/
def desiredDeployment (g : AiGateway) (configHash : String) : DeploymentObj :=
  { labels := some [("app", g.name)],
    replicas := 1,
    selector := some [("app", g.name)],
    template :=
      { labels := some [("app", g.name)],
        annotations := some [(configHashAnnKey, configHash)],
        spec :=
          { containers :=
              [{ name := "litellm",
                 image := "ghcr.io/berriai/litellm:v1.77.2-stable",
                 ports := [{ name := "http", containerPort := g.spec.port, protocol := "TCP" }],
                 volumeMounts := [{ name := "config", mountPath := "/app/config", readOnly := true }],
                 command := ["litellm", "--config", "/app/config/config.yaml", "--port",
                             toString g.spec.port],
                 env := buildEnvironmentVariables g }],
            volumes := [{ name := "config", configMapName := g.name ++ "-config" }] } } }

/-- The Service value constructed at the top of `reconcileService`. -/
def desiredService (g : AiGateway) : ServiceObj :=
  { labels := some [("app", g.name)],
    selector := some [("app", g.name)],
    ports := [{ name := "http", port := g.spec.port, targetPort := g.spec.port, protocol := "TCP" }],
    svcType := "ClusterIP" }

/-- The update decision of `reconcileConfigMap`. -/
def needsUpdateConfigMap (existing configMap : ConfigMapObj) (configData : String) : Bool :=
  (getGo existing.data "config.yaml" != configData) ||
    !RequiredLabelsPresent existing.labels configMap.labels

/-- The update body of `reconcileConfigMap`: replace the data, merge in only
the controller's labels. -/
def mergedConfigMap (existing configMap : ConfigMapObj) : ConfigMapObj :=
  { data := configMap.data,
    labels := insertAllGo existing.labels configMap.labels }

/-- `reconcileConfigMap`. -/
def reconcileConfigMap (g : AiGateway) (configData : String)
    (st : Option ConfigMapObj) (f : ApiFaults) : RecStep (Option ConfigMapObj) :=
  let configMap := desiredConfigMap g configData
  if f.cmGet then ⟨st, [], some "failed to get ConfigMap"⟩
  else
    match st with
    | none =>
        if f.cmWrite then ⟨st, [.createConfigMap], some "create ConfigMap failed"⟩
        else ⟨some configMap, [.createConfigMap], none⟩
    | some existing =>
        if needsUpdateConfigMap existing configMap configData then
          if f.cmWrite then ⟨st, [.updateConfigMap], some "update ConfigMap failed"⟩
          else ⟨some (mergedConfigMap existing configMap), [.updateConfigMap], none⟩
        else ⟨st, [], none⟩

/-- The update decision of `reconcileDeployment`: metadata labels, template
labels, config-hash annotation, and — when both sides have a container —
environment, image, and leading container port. -/
def needsUpdateDeployment (existing deployment : DeploymentObj) (configHash : String) : Bool :=
  !RequiredLabelsPresent existing.labels deployment.labels ||
  !RequiredLabelsPresent existing.template.labels deployment.template.labels ||
  (match existing.template.annotations with
   | none => true
   | some l => (lookupL l configHashAnnKey).getD "" != configHash) ||
  (if existing.template.spec.containers.length > 0 ∧
      deployment.template.spec.containers.length > 0 then
     let ec := existing.template.spec.containers.getD 0 default
     let dc := deployment.template.spec.containers.getD 0 default
     !EnvVarsEqual ec.env dc.env ||
     ec.image != dc.image ||
     (if ec.ports.length ≠ dc.ports.length then true
      else if ec.ports.length > 0 ∧ dc.ports.length > 0 then
        (ec.ports.getD 0 default).containerPort != (dc.ports.getD 0 default).containerPort
      else false)
   else false)

/-- The update body of `reconcileDeployment`: merge owned labels and
annotations, replace replicas, selector, and the pod spec. -/
def mergedDeployment (existing deployment : DeploymentObj) : DeploymentObj :=
  { labels := insertAllGo existing.labels deployment.labels,
    replicas := deployment.replicas,
    selector := deployment.selector,
    template :=
      { labels := insertAllGo existing.template.labels deployment.template.labels,
        annotations := insertAllGo existing.template.annotations deployment.template.annotations,
        spec := deployment.template.spec } }

/-- `reconcileDeployment`. -/
def reconcileDeployment (g : AiGateway) (configHash : String)
    (st : Option DeploymentObj) (f : ApiFaults) : RecStep (Option DeploymentObj) :=
  let deployment := desiredDeployment g configHash
  if f.depGet then ⟨st, [], some "failed to get Deployment"⟩
  else
    match st with
    | none =>
        if f.depWrite then ⟨st, [.createDeployment], some "create Deployment failed"⟩
        else ⟨some deployment, [.createDeployment], none⟩
    | some existing =>
        if needsUpdateDeployment existing deployment configHash then
          if f.depWrite then ⟨st, [.updateDeployment], some "update Deployment failed"⟩
          else ⟨some (mergedDeployment existing deployment), [.updateDeployment], none⟩
        else ⟨st, [], none⟩

/-- The update decision of `reconcileService`. -/
def needsUpdateService (existing service : ServiceObj) : Bool :=
  !RequiredLabelsPresent existing.labels service.labels ||
  (existing.ports.length > 0 && service.ports.length > 0 &&
    ((existing.ports.getD 0 default).port != (service.ports.getD 0 default).port))

/-- The update body of `reconcileService`: replace the ports, merge in only
the controller's labels. -/
def mergedService (existing service : ServiceObj) : ServiceObj :=
  { existing with
    ports := service.ports,
    labels := insertAllGo existing.labels service.labels }

/-- `reconcileService`. -/
def reconcileService (g : AiGateway)
    (st : Option ServiceObj) (f : ApiFaults) : RecStep (Option ServiceObj) :=
  let service := desiredService g
  if f.svcGet then ⟨st, [], some "failed to get Service"⟩
  else
    match st with
    | none =>
        if f.svcWrite then ⟨st, [.createService], some "create Service failed"⟩
        else ⟨some service, [.createService], none⟩
    | some existing =>
        if needsUpdateService existing service then
          if f.svcWrite then ⟨st, [.updateService], some "update Service failed"⟩
          else ⟨some (mergedService existing service), [.updateService], none⟩
        else ⟨st, [], none⟩

/-- Overall outcome of one pass of the AiGateway `Reconcile`. -/
structure ReconcileResult where
  cluster : ClusterState
  writes : List Write
  conditions : List Condition
  err : Option String
  deriving Repr

/-- `Reconcile` of the AiGateway controller: fetch, class filter, generate,
then ConfigMap → Deployment → Service, each failure recorded as a condition
and swallowed; only the final status write (or the initial fetch) can
surface an error. -/
def Reconcile (fetch : FetchResult AiGateway) (classes : List AiGatewayClass)
    (listErr : Bool) (st : ClusterState) (f : ApiFaults) : ReconcileResult :=
  match fetch with
  | .notFound => ⟨st, [], [], none⟩
  | .getFailed => ⟨st, [], [], some "failed to get AiGateway"⟩
  | .found g =>
    if !shouldProcessAiGateway classes listErr g then ⟨st, [], g.conditions, none⟩
    else
      let conds0 := g.conditions
      let cfg := generateAiGatewayConfig g
      let rcm := reconcileConfigMap g cfg.1 st.configMap f
      let st1 : ClusterState := { st with configMap := rcm.state }
      match rcm.err with
      | some e =>
          let conds := updateCondition conds0
            ⟨"AiGatewayConfigured", "False", "ConfigMapFailed",
             "Failed to create/update ConfigMap: " ++ e⟩
          ⟨st1, rcm.writes, conds, updateStatusErr f⟩
      | none =>
        let rdep := reconcileDeployment g cfg.2 st1.deployment f
        let st2 : ClusterState := { st1 with deployment := rdep.state }
        match rdep.err with
        | some e =>
            let conds := updateCondition conds0
              ⟨"AiGatewayReady", "False", "DeploymentFailed",
               "Failed to create/update Deployment: " ++ e⟩
            ⟨st2, rcm.writes ++ rdep.writes, conds, updateStatusErr f⟩
        | none =>
          let rsvc := reconcileService g st2.service f
          let st3 : ClusterState := { st2 with service := rsvc.state }
          match rsvc.err with
          | some e =>
              let conds := updateCondition conds0
                ⟨"AiGatewayReady", "False", "ServiceFailed",
                 "Failed to create/update Service: " ++ e⟩
              ⟨st3, rcm.writes ++ rdep.writes ++ rsvc.writes, conds, updateStatusErr f⟩
          | none =>
              let conds := updateCondition
                (updateCondition conds0
                  ⟨"AiGatewayConfigured", "True", "ConfigurationApplied",
                   "AiGateway configuration successfully applied"⟩)
                ⟨"AiGatewayReady", "True", "AiGatewayReady",
                 "AiGateway is ready and serving traffic"⟩
              ⟨st3, rcm.writes ++ rdep.writes ++ rsvc.writes, conds, updateStatusErr f⟩

end AG

/-! ### ModelRouter controller (`modelrouter_controller.go`, `modelrouter_generators.go`) -/

namespace MR

structure ModelRouterSpec where
  type : String
  port : Int
  aiModels : List AiModel
  deriving Repr, DecidableEq

structure ModelRouter where
  name : String
  spec : ModelRouterSpec
  conditions : List Condition
  deriving Repr, DecidableEq

/-- `NewModelRouterGenerator`: `none` means the LiteLLM generator was
selected; `some e` is the unsupported-provider error. -/
def NewModelRouterGenerator (provider : String) : Option String :=
  if provider = "litellm" ∨ provider = "" then none
  else some ("unsupported model router provider '" ++ provider ++
             "': only 'litellm' is currently supported")

/-- `LiteLLMGenerator.Validate`: the first failing check's error, or `none`. -/
def Validate (r : ModelRouter) : Option String :=
  if r.spec.type = "" then some "modelRouter type is required"
  else if r.spec.type ≠ "litellm" then
    some ("unsupported modelRouter type: " ++ r.spec.type ++ ", only 'litellm' is supported")
  else if r.spec.port ≤ 0 then
    some ("modelRouter port must be positive, got: " ++ toString r.spec.port)
  else if r.spec.aiModels.length = 0 then
    some "no AI models specified in ModelRouter"
  else if r.spec.aiModels.any (fun m => m.name = "") then
    some "AI model name cannot be empty"
  else none

/-- `validateModelRouterConfig`: generator selection then `Validate`. -/
def validateModelRouterConfig (r : ModelRouter) : Option String :=
  match NewModelRouterGenerator r.spec.type with
  | some e => some e
  | none => Validate r

/-- `LiteLLMGenerator.Generate`: YAML and 16-character hash (the
`yaml.Marshal` error branch is unreachable for this fixed struct). -/
def Generate (r : ModelRouter) : String × String :=
  let modelList := r.spec.aiModels.map (fun m =>
    let mapped := mapModelToLiteLLMFormat m.name
    { modelName := m.name,
      litellmParams :=
        { model := mapped.1,
          apiKey := if mapped.2 = "" then "" else "os.environ/" ++ mapped.2 } : ModelConfig })
  let configYAML := yamlMarshal { modelList := modelList, requestTimeout := 600 }
  (configYAML, configHashOf configYAML)

/-- `generateModelRouterConfig`: generator selection then `Generate`. -/
def generateModelRouterConfig (r : ModelRouter) : Except String (String × String) :=
  match NewModelRouterGenerator r.spec.type with
  | some e => .error e
  | none => .ok (Generate r)

/-- `buildEnvironmentVariables` of the ModelRouter controller. -/
def buildEnvironmentVariables (r : ModelRouter) : List EnvVar :=
  let base : List EnvVar := [{ name := "LITELLM_LOG", value := "INFO", valueFrom := none }]
  match NewModelRouterGenerator r.spec.type with
  | some _ => base
  | none =>
      base ++ (dedupKeys (r.spec.aiModels.map
        (fun m => (mapModelToLiteLLMFormat m.name).2))).map mkSecretEnvVar

/-- `shouldProcessModelRouter`: the type tag alone decides ownership. -/
def shouldProcessModelRouter (r : ModelRouter) : Bool :=
  r.spec.type == TypeLitellm

/-- The ConfigMap value constructed at the top of the ModelRouter
`reconcileConfigMap`: carries `type` and config-hash labels. -/
def desiredConfigMap (r : ModelRouter) (configData configHash : String) : ConfigMapObj :=
  { labels := some [("app", r.name), ("type", "litellm"), (configHashAnnKey, configHash)],
    data := some [("config.yaml", configData)] }

/-- The update decision of the ModelRouter `reconcileConfigMap`: strict
map equality on labels. -/
def needsUpdateConfigMap (existing configMap : ConfigMapObj) (configData : String) : Bool :=
  (getGo existing.data "config.yaml" != configData) ||
    !LabelsEqual existing.labels configMap.labels

/-- The update body of the ModelRouter `reconcileConfigMap`: wholesale
replacement of data and labels. -/
def mergedConfigMap (configMap : ConfigMapObj) : ConfigMapObj :=
  { data := configMap.data, labels := configMap.labels }

/-- The ModelRouter `reconcileConfigMap`. -/
def reconcileConfigMap (r : ModelRouter) (configData configHash : String)
    (st : Option ConfigMapObj) (f : ApiFaults) : RecStep (Option ConfigMapObj) :=
  let configMap := desiredConfigMap r configData configHash
  if f.cmGet then ⟨st, [], some "failed to get ConfigMap"⟩
  else
    match st with
    | none =>
        if f.cmWrite then ⟨st, [.createConfigMap], some "create ConfigMap failed"⟩
        else ⟨some configMap, [.createConfigMap], none⟩
    | some existing =>
        if needsUpdateConfigMap existing configMap configData then
          if f.cmWrite then ⟨st, [.updateConfigMap], some "update ConfigMap failed"⟩
          else ⟨some (mergedConfigMap configMap), [.updateConfigMap], none⟩
        else ⟨st, [], none⟩

/-- The Deployment value constructed at the top of the ModelRouter
`reconcileDeployment`: `type` and config-hash labels on both the object and
the pod template, no template annotations. -/
def desiredDeployment (r : ModelRouter) (configHash : String) : DeploymentObj :=
  { labels := some [("app", r.name), ("type", "litellm"), (configHashAnnKey, configHash)],
    replicas := 1,
    selector := some [("app", r.name)],
    template :=
      { labels := some [("app", r.name), ("type", "litellm"), (configHashAnnKey, configHash)],
        annotations := none,
        spec :=
          { containers :=
              [{ name := "litellm",
                 image := "ghcr.io/berriai/litellm:v1.77.2-stable",
                 ports := [{ name := "http", containerPort := r.spec.port, protocol := "TCP" }],
                 volumeMounts := [{ name := "config", mountPath := "/app/config", readOnly := true }],
                 command := ["litellm", "--config", "/app/config/config.yaml", "--port",
                             toString r.spec.port],
                 env := buildEnvironmentVariables r }],
            volumes := [{ name := "config", configMapName := r.name ++ "-config" }] } } }

/-- The update decision of the ModelRouter `reconcileDeployment`: strict
label equality on object and template labels, then the container checks. -/
def needsUpdateDeployment (existing deployment : DeploymentObj) : Bool :=
  !LabelsEqual existing.labels deployment.labels ||
  !LabelsEqual existing.template.labels deployment.template.labels ||
  (if existing.template.spec.containers.length > 0 ∧
      deployment.template.spec.containers.length > 0 then
     let ec := existing.template.spec.containers.getD 0 default
     let dc := deployment.template.spec.containers.getD 0 default
     !EnvVarsEqual ec.env dc.env ||
     ec.image != dc.image ||
     (if ec.ports.length ≠ dc.ports.length then true
      else if ec.ports.length > 0 ∧ dc.ports.length > 0 then
        (ec.ports.getD 0 default).containerPort != (dc.ports.getD 0 default).containerPort
      else false)
   else false)

/-- The update body of the ModelRouter `reconcileDeployment`: wholesale
replacement of labels and the whole spec. -/
def mergedDeployment (deployment : DeploymentObj) : DeploymentObj :=
  { labels := deployment.labels,
    replicas := deployment.replicas,
    selector := deployment.selector,
    template := deployment.template }

/-- The ModelRouter `reconcileDeployment`. -/
def reconcileDeployment (r : ModelRouter) (configHash : String)
    (st : Option DeploymentObj) (f : ApiFaults) : RecStep (Option DeploymentObj) :=
  let deployment := desiredDeployment r configHash
  if f.depGet then ⟨st, [], some "failed to get Deployment"⟩
  else
    match st with
    | none =>
        if f.depWrite then ⟨st, [.createDeployment], some "create Deployment failed"⟩
        else ⟨some deployment, [.createDeployment], none⟩
    | some existing =>
        if needsUpdateDeployment existing deployment then
          if f.depWrite then ⟨st, [.updateDeployment], some "update Deployment failed"⟩
          else ⟨some (mergedDeployment deployment), [.updateDeployment], none⟩
        else ⟨st, [], none⟩

/-- The Service value constructed at the top of the ModelRouter
`reconcileService`. -/
def desiredService (r : ModelRouter) : ServiceObj :=
  { labels := some [("app", r.name), ("type", "litellm")],
    selector := some [("app", r.name)],
    ports := [{ name := "http", port := r.spec.port, targetPort := r.spec.port, protocol := "TCP" }],
    svcType := "ClusterIP" }

/-- The update decision of the ModelRouter `reconcileService`. -/
def needsUpdateService (existing service : ServiceObj) : Bool :=
  !LabelsEqual existing.labels service.labels ||
  (existing.ports.length > 0 && service.ports.length > 0 &&
    ((existing.ports.getD 0 default).port != (service.ports.getD 0 default).port))

/-- The update body of the ModelRouter `reconcileService`: replace ports and
labels wholesale. -/
def mergedService (existing service : ServiceObj) : ServiceObj :=
  { existing with ports := service.ports, labels := service.labels }

/-- The ModelRouter `reconcileService`. -/
def reconcileService (r : ModelRouter)
    (st : Option ServiceObj) (f : ApiFaults) : RecStep (Option ServiceObj) :=
  let service := desiredService r
  if f.svcGet then ⟨st, [], some "failed to get Service"⟩
  else
    match st with
    | none =>
        if f.svcWrite then ⟨st, [.createService], some "create Service failed"⟩
        else ⟨some service, [.createService], none⟩
    | some existing =>
        if needsUpdateService existing service then
          if f.svcWrite then ⟨st, [.updateService], some "update Service failed"⟩
          else ⟨some (mergedService existing service), [.updateService], none⟩
        else ⟨st, [], none⟩

/-- Overall outcome of one pass of the ModelRouter `Reconcile`. -/
structure ReconcileResult where
  cluster : ClusterState
  writes : List Write
  conditions : List Condition
  statusConfigHash : Option String
  err : Option String
  deriving Repr

/-- `Reconcile` of the ModelRouter controller: fetch, type filter, validate,
generate, then ConfigMap → Deployment → Service; failures are recorded as
conditions and swallowed; only the status write (or the fetch) errors. -/
def Reconcile (fetch : FetchResult ModelRouter) (st : ClusterState)
    (f : ApiFaults) : ReconcileResult :=
  match fetch with
  | .notFound => ⟨st, [], [], none, none⟩
  | .getFailed => ⟨st, [], [], none, some "failed to get ModelRouter"⟩
  | .found r =>
    if !shouldProcessModelRouter r then ⟨st, [], r.conditions, none, none⟩
    else
      let conds0 := r.conditions
      match validateModelRouterConfig r with
      | some e =>
          let conds := updateCondition
            (updateCondition conds0
              ⟨"ModelRouterConfigured", "False", "ConfigurationInvalid",
               "ModelRouter configuration validation failed: " ++ e⟩)
            ⟨"ModelRouterReady", "False", "ConfigurationInvalid",
             "ModelRouter not ready due to invalid configuration"⟩
          ⟨st, [], conds, none, updateStatusErr f⟩
      | none =>
        let conds1 := updateCondition conds0
          ⟨"ModelRouterConfigured", "True", "ConfigurationValid",
           "ModelRouter configuration validation passed"⟩
        match generateModelRouterConfig r with
        | .error e =>
            let conds := updateCondition
              (updateCondition conds1
                ⟨"ModelRouterConfigured", "False", "ConfigGenerationFailed",
                 "Failed to generate config: " ++ e⟩)
              ⟨"ModelRouterReady", "False", "ConfigGenerationFailed",
               "ModelRouter not ready due to config generation failure"⟩
            ⟨st, [], conds, none, updateStatusErr f⟩
        | .ok cfg =>
          let rcm := reconcileConfigMap r cfg.1 cfg.2 st.configMap f
          let st1 : ClusterState := { st with configMap := rcm.state }
          match rcm.err with
          | some e =>
              let conds := updateCondition conds1
                ⟨"ModelRouterConfigured", "False", "ConfigMapFailed",
                 "Failed to create/update ConfigMap: " ++ e⟩
              ⟨st1, rcm.writes, conds, none, updateStatusErr f⟩
          | none =>
            let rdep := reconcileDeployment r cfg.2 st1.deployment f
            let st2 : ClusterState := { st1 with deployment := rdep.state }
            match rdep.err with
            | some e =>
                let conds := updateCondition conds1
                  ⟨"ModelRouterReady", "False", "DeploymentFailed",
                   "Failed to create/update Deployment: " ++ e⟩
                ⟨st2, rcm.writes ++ rdep.writes, conds, none, updateStatusErr f⟩
            | none =>
              let rsvc := reconcileService r st2.service f
              let st3 : ClusterState := { st2 with service := rsvc.state }
              match rsvc.err with
              | some e =>
                  let conds := updateCondition conds1
                    ⟨"ModelRouterReady", "False", "ServiceFailed",
                     "Failed to create/update Service: " ++ e⟩
                  ⟨st3, rcm.writes ++ rdep.writes ++ rsvc.writes, conds, none, updateStatusErr f⟩
              | none =>
                  let conds := updateCondition
                    (updateCondition conds1
                      ⟨"ModelRouterConfigured", "True", "ConfigurationApplied",
                       "ModelRouter configuration successfully applied"⟩)
                    ⟨"ModelRouterReady", "True", "ModelRouterReady",
                     "ModelRouter is ready and serving traffic"⟩
                  ⟨st3, rcm.writes ++ rdep.writes ++ rsvc.writes, conds, some cfg.2,
                   updateStatusErr f⟩

end MR

/-! ### Helper lemmas about the map and comparator models -/

theorem lookupL_insertL_self (l : LabelList) (k v : String) :
    lookupL (insertL l k v) k = some v := by
  induction l with
  | nil => simp [insertL, lookupL]
  | cons kv rest ih =>
      by_cases h : kv.1 = k
      · simp [insertL, lookupL, h]
      · simp [insertL, lookupL, h, ih]

theorem insertAllGo_singleton (m : GoMap) (k v : String) :
    insertAllGo m (some [(k, v)]) = some (insertL (m.getD []) k v) := rfl

theorem lookupGo_insertAllGo_singleton (m : GoMap) (k v : String) :
    lookupGo (insertAllGo m (some [(k, v)])) k = some v := by
  rw [insertAllGo_singleton]
  exact lookupL_insertL_self _ k v

theorem RequiredLabelsPresent_singleton (m : GoMap) (k v : String) :
    RequiredLabelsPresent m (some [(k, v)]) = (lookupGo m k == some v) := by
  simp [RequiredLabelsPresent]

theorem RequiredLabelsPresent_insertAllGo_singleton (m : GoMap) (k v : String) :
    RequiredLabelsPresent (insertAllGo m (some [(k, v)])) (some [(k, v)]) = true := by
  rw [RequiredLabelsPresent_singleton, lookupGo_insertAllGo_singleton]
  simp

theorem RequiredLabelsPresent_insertL_singleton (l : LabelList) (k v : String) :
    RequiredLabelsPresent (some (insertL l k v)) (some [(k, v)]) = true := by
  rw [RequiredLabelsPresent_singleton]
  simp [lookupGo, lookupL_insertL_self]

theorem RequiredLabelsPresent_self_singleton (k v : String) :
    RequiredLabelsPresent (some [(k, v)]) (some [(k, v)]) = true := by
  simp [RequiredLabelsPresent, lookupGo, lookupL]

theorem EnvVarsEqual_refl (l : List EnvVar) : EnvVarsEqual l l = true := by
  simp [EnvVarsEqual]

theorem getGo_pair (k v : String) : getGo (some [(k, v)]) k = v := by
  simp [getGo, lookupGo, lookupL]

/-! ### Idempotence of the AiGateway per-resource steps -/

namespace AG

theorem needsUpdateConfigMap_self (g : AiGateway) (d : String) :
    needsUpdateConfigMap (desiredConfigMap g d) (desiredConfigMap g d) d = false := by
  simp [needsUpdateConfigMap, desiredConfigMap, getGo_pair, RequiredLabelsPresent_self_singleton]

theorem needsUpdateConfigMap_merged (g : AiGateway) (d : String) (ex : ConfigMapObj) :
    needsUpdateConfigMap (mergedConfigMap ex (desiredConfigMap g d)) (desiredConfigMap g d) d
      = false := by
  simp [needsUpdateConfigMap, mergedConfigMap, desiredConfigMap, getGo_pair,
    RequiredLabelsPresent_insertAllGo_singleton]

theorem reconcileConfigMap_noFaults_err (g : AiGateway) (d : String) (st : Option ConfigMapObj) :
    (reconcileConfigMap g d st noFaults).err = none := by
  cases st with
  | none => rfl
  | some ex =>
      simp only [reconcileConfigMap, noFaults, Bool.false_eq_true, if_false]
      split <;> rfl

theorem reconcileConfigMap_idem (g : AiGateway) (d : String) (st : Option ConfigMapObj) :
    (reconcileConfigMap g d (reconcileConfigMap g d st noFaults).state noFaults).writes = [] := by
  cases st with
  | none =>
      have h1 : (reconcileConfigMap g d none noFaults).state = some (desiredConfigMap g d) := rfl
      rw [h1]
      simp [reconcileConfigMap, noFaults, needsUpdateConfigMap_self]
  | some ex =>
      by_cases h1 : needsUpdateConfigMap ex (desiredConfigMap g d) d = true
      · have hst : (reconcileConfigMap g d (some ex) noFaults).state
            = some (mergedConfigMap ex (desiredConfigMap g d)) := by
          simp [reconcileConfigMap, noFaults, h1]
        rw [hst]
        simp [reconcileConfigMap, noFaults, needsUpdateConfigMap_merged]
      · have hst : (reconcileConfigMap g d (some ex) noFaults).state = some ex := by
          simp [reconcileConfigMap, noFaults, h1]
        rw [hst]
        simp [reconcileConfigMap, noFaults, h1]

theorem needsUpdateDeployment_self (g : AiGateway) (hash : String) :
    needsUpdateDeployment (desiredDeployment g hash) (desiredDeployment g hash) hash = false := by
  simp [needsUpdateDeployment, desiredDeployment, RequiredLabelsPresent_self_singleton,
    EnvVarsEqual_refl, lookupL]

theorem needsUpdateDeployment_merged (g : AiGateway) (hash : String) (ex : DeploymentObj) :
    needsUpdateDeployment (mergedDeployment ex (desiredDeployment g hash))
      (desiredDeployment g hash) hash = false := by
  simp [needsUpdateDeployment, mergedDeployment, desiredDeployment,
    RequiredLabelsPresent_insertAllGo_singleton, RequiredLabelsPresent_insertL_singleton,
    EnvVarsEqual_refl, insertAllGo_singleton, lookupL_insertL_self]

theorem reconcileDeployment_noFaults_err (g : AiGateway) (hash : String)
    (st : Option DeploymentObj) :
    (reconcileDeployment g hash st noFaults).err = none := by
  cases st with
  | none => rfl
  | some ex =>
      simp only [reconcileDeployment, noFaults, Bool.false_eq_true, if_false]
      split <;> rfl

theorem reconcileDeployment_idem (g : AiGateway) (hash : String) (st : Option DeploymentObj) :
    (reconcileDeployment g hash (reconcileDeployment g hash st noFaults).state noFaults).writes
      = [] := by
  cases st with
  | none =>
      have h1 : (reconcileDeployment g hash none noFaults).state
          = some (desiredDeployment g hash) := rfl
      rw [h1]
      simp [reconcileDeployment, noFaults, needsUpdateDeployment_self]
  | some ex =>
      by_cases h1 : needsUpdateDeployment ex (desiredDeployment g hash) hash = true
      · have hst : (reconcileDeployment g hash (some ex) noFaults).state
            = some (mergedDeployment ex (desiredDeployment g hash)) := by
          simp [reconcileDeployment, noFaults, h1]
        rw [hst]
        simp [reconcileDeployment, noFaults, needsUpdateDeployment_merged]
      · have hst : (reconcileDeployment g hash (some ex) noFaults).state = some ex := by
          simp [reconcileDeployment, noFaults, h1]
        rw [hst]
        simp [reconcileDeployment, noFaults, h1]

theorem needsUpdateService_self (g : AiGateway) :
    needsUpdateService (desiredService g) (desiredService g) = false := by
  simp [needsUpdateService, desiredService, RequiredLabelsPresent_self_singleton]

theorem needsUpdateService_merged (g : AiGateway) (ex : ServiceObj) :
    needsUpdateService (mergedService ex (desiredService g)) (desiredService g) = false := by
  simp [needsUpdateService, mergedService, desiredService,
    RequiredLabelsPresent_insertAllGo_singleton]

theorem reconcileService_noFaults_err (g : AiGateway) (st : Option ServiceObj) :
    (reconcileService g st noFaults).err = none := by
  cases st with
  | none => rfl
  | some ex =>
      simp only [reconcileService, noFaults, Bool.false_eq_true, if_false]
      split <;> rfl

theorem reconcileService_idem (g : AiGateway) (st : Option ServiceObj) :
    (reconcileService g (reconcileService g st noFaults).state noFaults).writes = [] := by
  cases st with
  | none =>
      have h1 : (reconcileService g none noFaults).state = some (desiredService g) := rfl
      rw [h1]
      simp [reconcileService, noFaults, needsUpdateService_self]
  | some ex =>
      by_cases h1 : needsUpdateService ex (desiredService g) = true
      · have hst : (reconcileService g (some ex) noFaults).state
            = some (mergedService ex (desiredService g)) := by
          simp [reconcileService, noFaults, h1]
        rw [hst]
        simp [reconcileService, noFaults, needsUpdateService_merged]
      · have hst : (reconcileService g (some ex) noFaults).state = some ex := by
          simp [reconcileService, noFaults, h1]
        rw [hst]
        simp [reconcileService, noFaults, h1]

/-- A processed pass with a healthy API reduces to the three chained steps,
reports success conditions, and returns no error. -/
theorem Reconcile_found_processed (g : AiGateway) (classes : List AiGatewayClass)
    (listErr : Bool) (st : ClusterState)
    (hp : shouldProcessAiGateway classes listErr g = true) :
    Reconcile (.found g) classes listErr st noFaults =
      ⟨⟨(reconcileConfigMap g (generateAiGatewayConfig g).1 st.configMap noFaults).state,
        (reconcileDeployment g (generateAiGatewayConfig g).2 st.deployment noFaults).state,
        (reconcileService g st.service noFaults).state⟩,
       (reconcileConfigMap g (generateAiGatewayConfig g).1 st.configMap noFaults).writes ++
         (reconcileDeployment g (generateAiGatewayConfig g).2 st.deployment noFaults).writes ++
         (reconcileService g st.service noFaults).writes,
       updateCondition
         (updateCondition g.conditions
           ⟨"AiGatewayConfigured", "True", "ConfigurationApplied",
            "AiGateway configuration successfully applied"⟩)
         ⟨"AiGatewayReady", "True", "AiGatewayReady",
          "AiGateway is ready and serving traffic"⟩,
       none⟩ := by
  have hstatus : updateStatusErr noFaults = none := rfl
  simp only [Reconcile, hp, Bool.not_true, Bool.false_eq_true, if_false,
    reconcileConfigMap_noFaults_err, reconcileDeployment_noFaults_err,
    reconcileService_noFaults_err, hstatus]

end AG

/-- C1: re-running the AiGateway reconcile pass on a fetched gateway object
with an unchanged spec, against the cluster state produced by the first pass
and a healthy API, issues zero Create and zero Update calls for the
ConfigMap, the Deployment, and the Service. -/
theorem C1_reconcile_idempotent (g : AG.AiGateway) (classes : List AG.AiGatewayClass)
    (listErr : Bool) (st : ClusterState) :
    (AG.Reconcile (.found g) classes listErr
      (AG.Reconcile (.found g) classes listErr st noFaults).cluster noFaults).writes = [] := by
  by_cases hp : AG.shouldProcessAiGateway classes listErr g = true
  · rw [AG.Reconcile_found_processed g classes listErr st hp,
      AG.Reconcile_found_processed g classes listErr _ hp]
    simp only [AG.reconcileConfigMap_idem, AG.reconcileDeployment_idem,
      AG.reconcileService_idem, List.append_nil, List.nil_append]
  · have hnp : AG.shouldProcessAiGateway classes listErr g = false :=
      Bool.eq_false_iff.mpr (fun hc => hp hc)
    simp [AG.Reconcile, hnp]

/-! ### Order properties of the model-list comparators -/

theorem goLtb_eq_of_not_both {a b : String} (h1 : goLtb a b = false)
    (h2 : goLtb b a = false) : a = b := by
  have : a.data = b.data := goStrLtb_eq_of_not h1 h2
  cases a
  cases b
  exact congrArg String.mk this

theorem goLtb_asymm {a b : String} (h : goLtb a b = true) : goLtb b a = false :=
  goStrLtb_asymm h

theorem goLtb_trans {a b c : String} (h1 : goLtb a b = true) (h2 : goLtb b c = true) :
    goLtb a c = true :=
  goStrLtb_trans h1 h2

theorem goLtb_irrefl (a : String) : goLtb a a = false :=
  goStrLtb_irrefl a.data

instance : IsTotal AG.AiModel AG.aiModelLe where
  total a b := by
    by_cases h1 : goLtb a.provider b.provider = true
    · exact Or.inl (Or.inl h1)
    · by_cases h2 : goLtb b.provider a.provider = true
      · exact Or.inr (Or.inl h2)
      · have hp : a.provider = b.provider :=
          goLtb_eq_of_not_both (Bool.eq_false_iff.mpr h1) (Bool.eq_false_iff.mpr h2)
        rcases goLeb_total a.name b.name with hn | hn
        · exact Or.inl (Or.inr ⟨hp, hn⟩)
        · exact Or.inr (Or.inr ⟨hp.symm, hn⟩)

instance : IsTrans AG.AiModel AG.aiModelLe where
  trans a b c hab hbc := by
    rcases hab with h1 | ⟨h1, h1n⟩ <;> rcases hbc with h2 | ⟨h2, h2n⟩
    · exact Or.inl (goLtb_trans h1 h2)
    · exact Or.inl (h2 ▸ h1)
    · exact Or.inl (h1 ▸ h2)
    · exact Or.inr ⟨h1.trans h2, goLeb_trans h1n h2n⟩

instance : IsAntisymm AG.AiModel AG.aiModelLe where
  antisymm a b hab hba := by
    rcases hab with h1 | ⟨h1, h1n⟩ <;> rcases hba with h2 | ⟨h2, h2n⟩
    · rw [goLtb_asymm h1] at h2
      exact absurd h2 (by simp)
    · rw [h2, goLtb_irrefl] at h1
      exact absurd h1 (by simp)
    · rw [h1, goLtb_irrefl] at h2
      exact absurd h2 (by simp)
    · cases a
      cases b
      simp only at h1 h1n h2n
      simp [h1, goLeb_antisymm h1n h2n]

instance : IsTotal MR.AiModel MR.aiModelLe where
  total a b := goLeb_total a.name b.name

instance : IsTrans MR.AiModel MR.aiModelLe where
  trans _ _ _ hab hbc := goLeb_trans hab hbc

instance : IsAntisymm MR.AiModel MR.aiModelLe where
  antisymm a b hab hba := by
    cases a
    cases b
    simp only [MR.aiModelLe] at hab hba
    simp [goLeb_antisymm hab hba]

theorem AG_AiModelsEqual_of_perm (A B : List AG.AiModel) (h : A.Perm B) :
    AG.AiModelsEqual (some A) (some B) = true := by
  simp only [AG.AiModelsEqual, decide_eq_true_eq]
  exact List.eq_of_perm_of_sorted
    (((List.perm_insertionSort AG.aiModelLe A).trans h).trans
      (List.perm_insertionSort AG.aiModelLe B).symm)
    (List.sorted_insertionSort AG.aiModelLe A)
    (List.sorted_insertionSort AG.aiModelLe B)

theorem MR_AiModelsEqual_of_perm (A B : List MR.AiModel) (h : A.Perm B) :
    MR.AiModelsEqual (some A) (some B) = true := by
  simp only [MR.AiModelsEqual, decide_eq_true_eq]
  exact List.eq_of_perm_of_sorted
    (((List.perm_insertionSort MR.aiModelLe A).trans h).trans
      (List.perm_insertionSort MR.aiModelLe B).symm)
    (List.sorted_insertionSort MR.aiModelLe A)
    (List.sorted_insertionSort MR.aiModelLe B)

/-- C8: both `AiModelsEqual` comparator variants treat an absent (nil) model
list and a present-but-empty one as not equal, are reflexive on nil and on
empty, and return true on any two lists that are permutations of each other. -/
theorem C8_aiModelsEqual_nil_empty_perm :
    (AG.AiModelsEqual none (some []) = false ∧ AG.AiModelsEqual (some []) none = false ∧
     AG.AiModelsEqual none none = true ∧ AG.AiModelsEqual (some []) (some []) = true ∧
     ∀ (A B : List AG.AiModel), A.Perm B → AG.AiModelsEqual (some A) (some B) = true) ∧
    (MR.AiModelsEqual none (some []) = false ∧ MR.AiModelsEqual (some []) none = false ∧
     MR.AiModelsEqual none none = true ∧ MR.AiModelsEqual (some []) (some []) = true ∧
     ∀ (A B : List MR.AiModel), A.Perm B → MR.AiModelsEqual (some A) (some B) = true) :=
  ⟨⟨rfl, rfl, rfl, rfl, AG_AiModelsEqual_of_perm⟩,
   ⟨rfl, rfl, rfl, rfl, MR_AiModelsEqual_of_perm⟩⟩

/-- Witness for C8 at concrete reordered two-element lists. -/
theorem C8_aiModelsEqual_witness :
    AG.AiModelsEqual (some [⟨"gpt-4", "openai"⟩, ⟨"claude-3-opus", "anthropic"⟩])
      (some [⟨"claude-3-opus", "anthropic"⟩, ⟨"gpt-4", "openai"⟩]) = true ∧
    MR.AiModelsEqual (some [⟨"openai/gpt-4"⟩, ⟨"gemini/gemini-1.5-pro"⟩])
      (some [⟨"gemini/gemini-1.5-pro"⟩, ⟨"openai/gpt-4"⟩]) = true :=
  ⟨C8_aiModelsEqual_nil_empty_perm.1.2.2.2.2 _ _
     (List.Perm.swap (⟨"claude-3-opus", "anthropic"⟩ : AG.AiModel)
       (⟨"gpt-4", "openai"⟩ : AG.AiModel) []),
   C8_aiModelsEqual_nil_empty_perm.2.2.2.2.2 _ _
     (List.Perm.swap (⟨"gemini/gemini-1.5-pro"⟩ : MR.AiModel)
       (⟨"openai/gpt-4"⟩ : MR.AiModel) [])⟩

/-! ### Determinism of config rendering and shape of the hash -/

/-- C9: config rendering is deterministic and a function of the model list
alone; two objects whose specs carry equal model lists render byte-identical
YAML and identical hashes (the Lean embedding is pure, mirroring the absence
of side effects in the generators). -/
theorem C9_config_rendering_deterministic :
    (∀ (g g' : AG.AiGateway), g.spec.aiModels = g'.spec.aiModels →
       AG.generateAiGatewayConfig g = AG.generateAiGatewayConfig g') ∧
    (∀ (r r' : MR.ModelRouter), r.spec.aiModels = r'.spec.aiModels →
       MR.Generate r = MR.Generate r') := by
  constructor
  · intro g g' h
    simp only [AG.generateAiGatewayConfig, h]
  · intro r r' h
    simp only [MR.Generate, h]

/-- Witness for C9: two gateways differing in name and port but with equal
model lists render the same config and hash. -/
theorem C9_config_rendering_witness :
    AG.generateAiGatewayConfig
        ⟨"gw-a", ⟨8000, [⟨"gpt-4", "openai"⟩], ""⟩, []⟩
      = AG.generateAiGatewayConfig ⟨"gw-b", ⟨8000, [⟨"gpt-4", "openai"⟩], "cls"⟩, []⟩ ∧
    MR.Generate ⟨"rt-a", ⟨"litellm", 4000, [⟨"openai/gpt-4"⟩]⟩, []⟩
      = MR.Generate ⟨"rt-b", ⟨"litellm", 9999, [⟨"openai/gpt-4"⟩]⟩, []⟩ :=
  ⟨C9_config_rendering_deterministic.1 _ _ rfl,
   C9_config_rendering_deterministic.2 _ _ rfl⟩

theorem sha256Bytes_length (m : List Nat) : (sha256Bytes m).length = 32 := rfl

theorem hexOfBytes_data_length (bs : List Nat) :
    (hexOfBytes bs).data.length = 2 * bs.length := by
  induction bs with
  | nil => rfl
  | cons b t ih =>
      simp only [hexOfBytes, List.flatMap_cons, hexByte] at *
      simp [ih]
      omega

/-- C10: in both controller variants, the returned configHash is exactly the
first 16 hexadecimal characters of the SHA-256 digest of the serialized YAML
configuration, and it always has length 16. -/
theorem C10_configHash_shape :
    (∀ g : AG.AiGateway,
       (AG.generateAiGatewayConfig g).2
         = goTake (hexOfBytes (sha256Bytes (strBytes (AG.generateAiGatewayConfig g).1))) 16 ∧
       ((AG.generateAiGatewayConfig g).2).length = 16) ∧
    (∀ r : MR.ModelRouter,
       (MR.Generate r).2
         = goTake (hexOfBytes (sha256Bytes (strBytes (MR.Generate r).1))) 16 ∧
       ((MR.Generate r).2).length = 16) := by
  have hlen : ∀ s : String, (configHashOf s).length = 16 := by
    intro s
    show (goTake (hexOfBytes (sha256Bytes (strBytes s))) 16).data.length = 16
    simp only [goTake, List.length_take]
    rw [hexOfBytes_data_length, sha256Bytes_length]
    decide
  constructor
  · intro g
    exact ⟨rfl, hlen _⟩
  · intro r
    exact ⟨rfl, hlen _⟩

/-! ### Class-ownership filter -/

/-- C2, counterexample: a gateway declaring a class name that matches no
class of this controller is still processed when a class of this controller
carries the default-class annotation — the declared-name check falls through
to the default-class check instead of terminating the pass. -/
theorem C2_ownership_counterexample :
    AG.shouldProcessAiGateway
        [⟨"litellm", ControllerName, some [(AG.defaultClassAnnKey, "true")]⟩] false
        ⟨"gw", ⟨8000, [⟨"gpt-4", "openai"⟩], "google-gateway"⟩, []⟩ = true ∧
    ("google-gateway" : String) ≠ "" ∧
    [(⟨"litellm", ControllerName, some [(AG.defaultClassAnnKey, "true")]⟩ : AG.AiGatewayClass)].all
      (fun c => c.name != "google-gateway") = true := by
  refine ⟨?_, by decide, by decide⟩
  rfl

/-- C2, amended: when the class list call succeeds, the pass proceeds iff
the declared class name matches a class of this controller, or some class of
this controller carries the default-class annotation — the default-class
fallback applies regardless of the declared name. -/
theorem C2_ownership_amended (classes : List AG.AiGatewayClass) (listErr : Bool)
    (g : AG.AiGateway) (h : listErr = false) :
    AG.shouldProcessAiGateway classes listErr g = true ↔
      (g.spec.aiGatewayClassName ≠ "" ∧
        ∃ c ∈ classes, c.controller = ControllerName ∧ c.name = g.spec.aiGatewayClassName) ∨
      (∃ c ∈ classes, c.controller = ControllerName ∧
        getGo c.annotations AG.defaultClassAnnKey = "true") := by
  subst h
  simp [AG.shouldProcessAiGateway, List.any_eq_true, List.mem_filter, and_assoc]

/-- Witness for C2's amended statement at a concrete matching class. -/
theorem C2_ownership_witness :
    AG.shouldProcessAiGateway [⟨"litellm", ControllerName, none⟩] false
      ⟨"gw", ⟨8000, [], "litellm"⟩, []⟩ = true :=
  (C2_ownership_amended [⟨"litellm", ControllerName, none⟩] false
    ⟨"gw", ⟨8000, [], "litellm"⟩, []⟩ rfl).mpr (by decide)

/-! ### The error channel of the two reconcile loops -/

/-- Every processed AiGateway pass returns exactly the status-write error. -/
theorem AG_Reconcile_found_err (g : AG.AiGateway) (classes : List AG.AiGatewayClass)
    (listErr : Bool) (st : ClusterState) (f : ApiFaults)
    (hp : AG.shouldProcessAiGateway classes listErr g = true) :
    (AG.Reconcile (.found g) classes listErr st f).err = updateStatusErr f := by
  simp only [AG.Reconcile, hp, Bool.not_true, Bool.false_eq_true, if_false]
  split
  · rfl
  · split
    · rfl
    · split <;> rfl

/-- Every processed ModelRouter pass returns exactly the status-write error. -/
theorem MR_Reconcile_found_err (r : MR.ModelRouter) (st : ClusterState) (f : ApiFaults)
    (hp : MR.shouldProcessModelRouter r = true) :
    (MR.Reconcile (.found r) st f).err = updateStatusErr f := by
  simp only [MR.Reconcile, hp, Bool.not_true, Bool.false_eq_true, if_false]
  repeat' split
  all_goals rfl

/-- C3, counterexample: a pass whose initial fetch fails with a non-not-found
error returns a non-nil error although no status write was attempted (and
none failed) — so a non-nil return does not imply a failed status write. -/
theorem C3_error_channel_counterexample :
    (AG.Reconcile (FetchResult.getFailed) [] false ⟨none, none, none⟩ noFaults).err
        = some "failed to get AiGateway" ∧
    noFaults.statusWrite = false :=
  ⟨rfl, rfl⟩

/-- C3, amended: once the triggering object has been fetched, a pass returns
a non-nil error iff it is processed by this controller and the status write
fails; validation, config-generation, and ConfigMap/Deployment/Service
failures alone leave the returned error nil. A failed fetch additionally
returns that fetch error. -/
theorem C3_error_channel_amended :
    (∀ (g : AG.AiGateway) (classes : List AG.AiGatewayClass) (listErr : Bool)
       (st : ClusterState) (f : ApiFaults),
       ((AG.Reconcile (.found g) classes listErr st f).err ≠ none ↔
         AG.shouldProcessAiGateway classes listErr g = true ∧ f.statusWrite = true)) ∧
    (∀ (r : MR.ModelRouter) (st : ClusterState) (f : ApiFaults),
       ((MR.Reconcile (.found r) st f).err ≠ none ↔
         MR.shouldProcessModelRouter r = true ∧ f.statusWrite = true)) := by
  constructor
  · intro g classes listErr st f
    by_cases hp : AG.shouldProcessAiGateway classes listErr g = true
    · rw [AG_Reconcile_found_err g classes listErr st f hp]
      cases hf : f.statusWrite <;> simp [updateStatusErr, hp, hf]
    · have hnp : AG.shouldProcessAiGateway classes listErr g = false :=
        Bool.eq_false_iff.mpr (fun hc => hp hc)
      simp [AG.Reconcile, hnp]
  · intro r st f
    by_cases hp : MR.shouldProcessModelRouter r = true
    · rw [MR_Reconcile_found_err r st f hp]
      cases hf : f.statusWrite <;> simp [updateStatusErr, hp, hf]
    · have hnp : MR.shouldProcessModelRouter r = false :=
        Bool.eq_false_iff.mpr (fun hc => hp hc)
      simp [MR.Reconcile, hnp]

/-! ### Conditions after updateCondition -/

theorem getCondition_updateCondition_self (conds : List Condition) (c : Condition) :
    getCondition (updateCondition conds c) c.ctype = some c := by
  induction conds with
  | nil => simp [updateCondition, getCondition]
  | cons e rest ih =>
      simp only [updateCondition]
      by_cases h : e.ctype = c.ctype
      · rw [if_pos h]
        simp [getCondition]
      · rw [if_neg h]
        have het : (e.ctype == c.ctype) = false := by simp [h]
        simp only [getCondition, List.find?] at ih ⊢
        simp only [het]
        exact ih

theorem getCondition_updateCondition_other (conds : List Condition) (c : Condition)
    (t : String) (h : t ≠ c.ctype) :
    getCondition (updateCondition conds c) t = getCondition conds t := by
  have hct : (c.ctype == t) = false := by
    simp
    exact fun hc => h (Eq.symm hc)
  induction conds with
  | nil => simp [updateCondition, getCondition, List.find?, hct]
  | cons e rest ih =>
      simp only [updateCondition]
      by_cases he : e.ctype = c.ctype
      · rw [if_pos he]
        have het : (e.ctype == t) = false := by rw [he]; exact hct
        simp [getCondition, List.find?, hct, het]
      · rw [if_neg he]
        simp only [getCondition, List.find?] at ih ⊢
        cases het : (e.ctype == t) with
        | true => simp [het]
        | false => simp only [het]; exact ih

/-! ### Reconciling an empty model list -/

/-- C4, counterexample: the AiGateway controller performs no model-list
validation — a gateway whose spec has an empty model list is reconciled to
completion: all three child resources are created and the Configured
condition ends True, not False. -/
theorem C4_empty_models_counterexample :
    (AG.Reconcile (.found ⟨"gw", ⟨8000, [], ""⟩, []⟩)
        [⟨"litellm", ControllerName, some [(AG.defaultClassAnnKey, "true")]⟩] false
        ⟨none, none, none⟩ noFaults).writes
      = [Write.createConfigMap, Write.createDeployment, Write.createService] ∧
    getCondition
      (AG.Reconcile (.found ⟨"gw", ⟨8000, [], ""⟩, []⟩)
        [⟨"litellm", ControllerName, some [(AG.defaultClassAnnKey, "true")]⟩] false
        ⟨none, none, none⟩ noFaults).conditions "AiGatewayConfigured"
      = some ⟨"AiGatewayConfigured", "True", "ConfigurationApplied",
              "AiGateway configuration successfully applied"⟩ :=
  ⟨rfl, rfl⟩

/-- C4, amended: the ModelRouter controller (the variant that validates)
ends a pass over a gateway with a litellm type, a positive port, and an
empty model list with the Configured condition False and a message naming
the missing models, issues no child-resource write, and leaves the cluster
untouched. The AiGateway controller has no such validation and creates its
child resources. -/
theorem C4_empty_models_amended (r : MR.ModelRouter) (st : ClusterState) (f : ApiFaults)
    (htype : r.spec.type = "litellm") (hport : 0 < r.spec.port)
    (hempty : r.spec.aiModels = []) :
    (MR.Reconcile (.found r) st f).writes = [] ∧
    getCondition (MR.Reconcile (.found r) st f).conditions "ModelRouterConfigured"
      = some ⟨"ModelRouterConfigured", "False", "ConfigurationInvalid",
              "ModelRouter configuration validation failed: no AI models specified in ModelRouter"⟩ ∧
    (MR.Reconcile (.found r) st f).cluster = st := by
  have hsp : MR.shouldProcessModelRouter r = true := by
    simp [MR.shouldProcessModelRouter, htype, TypeLitellm]
  have hv : MR.validateModelRouterConfig r
      = some "no AI models specified in ModelRouter" := by
    unfold MR.validateModelRouterConfig MR.NewModelRouterGenerator MR.Validate
    rw [htype, hempty]
    have hpn : ¬ r.spec.port ≤ 0 := by omega
    simp [hpn]
  simp only [MR.Reconcile, hsp, Bool.not_true, Bool.false_eq_true, if_false, hv]
  refine ⟨trivial, ?_, trivial⟩
  rw [getCondition_updateCondition_other _ _ _ (by decide),
    getCondition_updateCondition_self]
  rfl

/-- Witness for C4's amended statement at a concrete empty-model router. -/
theorem C4_empty_models_witness :
    (MR.Reconcile (.found ⟨"rt", ⟨"litellm", 4000, []⟩, []⟩) ⟨none, none, none⟩ noFaults).writes
      = [] ∧
    getCondition
      (MR.Reconcile (.found ⟨"rt", ⟨"litellm", 4000, []⟩, []⟩)
        ⟨none, none, none⟩ noFaults).conditions "ModelRouterConfigured"
      = some ⟨"ModelRouterConfigured", "False", "ConfigurationInvalid",
              "ModelRouter configuration validation failed: no AI models specified in ModelRouter"⟩ ∧
    (MR.Reconcile (.found ⟨"rt", ⟨"litellm", 4000, []⟩, []⟩)
        ⟨none, none, none⟩ noFaults).cluster = ⟨none, none, none⟩ :=
  C4_empty_models_amended ⟨"rt", ⟨"litellm", 4000, []⟩, []⟩ ⟨none, none, none⟩ noFaults
    rfl (by decide) rfl

/-! ### Membership in the deduplicated API-key set -/

theorem dedupKeys_aux_mem (keys : List String) :
    ∀ (acc : List String) (e : String), (e ∈ acc ∨ (e ≠ "" ∧ e ∈ keys)) →
      e ∈ keys.foldl (fun acc k => if k ≠ "" ∧ k ∉ acc then acc ++ [k] else acc) acc := by
  induction keys with
  | nil =>
      intro acc e h
      rcases h with hacc | ⟨_, hmem⟩
      · exact hacc
      · exact absurd hmem (List.not_mem_nil e)
  | cons k t ih =>
      intro acc e h
      simp only [List.foldl_cons]
      apply ih
      rcases h with hacc | ⟨hne, hmem⟩
      · left
        split
        · exact List.mem_append_left _ hacc
        · exact hacc
      · rcases List.mem_cons.mp hmem with heq | ht
        · subst heq
          left
          by_cases hc : e ≠ "" ∧ e ∉ acc
          · rw [if_pos hc]
            exact List.mem_append_right _ (List.mem_singleton.mpr rfl)
          · have hin : e ∈ acc := by
              by_contra hna
              exact hc ⟨hne, hna⟩
            split
            · exact List.mem_append_left _ hin
            · exact hin
        · right
          exact ⟨hne, ht⟩

theorem mem_dedupKeys_of_mem (keys : List String) (e : String)
    (hne : e ≠ "") (hmem : e ∈ keys) : e ∈ dedupKeys keys :=
  dedupKeys_aux_mem keys [] e (Or.inr ⟨hne, hmem⟩)

theorem dedupKeys_aux_sound (keys : List String) :
    ∀ (acc : List String) (e : String),
      e ∈ keys.foldl (fun acc k => if k ≠ "" ∧ k ∉ acc then acc ++ [k] else acc) acc →
      e ∈ acc ∨ (e ∈ keys ∧ e ≠ "") := by
  induction keys with
  | nil =>
      intro acc e h
      exact Or.inl h
  | cons k t ih =>
      intro acc e h
      simp only [List.foldl_cons] at h
      rcases ih _ e h with hacc | ⟨hmem, hne⟩
      · by_cases hc : k ≠ "" ∧ k ∉ acc
        · rw [if_pos hc] at hacc
          rcases List.mem_append.mp hacc with ha | hk
          · exact Or.inl ha
          · right
            have : e = k := List.mem_singleton.mp hk
            subst this
            exact ⟨List.mem_cons_self e t, hc.1⟩
        · rw [if_neg hc] at hacc
          exact Or.inl hacc
      · exact Or.inr ⟨List.mem_cons_of_mem k hmem, hne⟩

theorem mem_of_mem_dedupKeys (keys : List String) (e : String)
    (h : e ∈ dedupKeys keys) : e ∈ keys ∧ e ≠ "" := by
  rcases dedupKeys_aux_sound keys [] e h with habs | hok
  · exact absurd habs (List.not_mem_nil e)
  · exact hok

/-! ### Provider → API-key mapping -/

/-- C5, counterexample: in the AiGateway controller a model with provider
`ollama` does contribute an API-key environment variable
(`OLLAMA_API_KEY`, not none) to both the Deployment environment and the
rendered config — `getProviderApiKeyEnvVar` has no provider table at all. -/
theorem C5_ollama_counterexample :
    AG.buildEnvironmentVariables ⟨"gw", ⟨8000, [⟨"llama2", "ollama"⟩], ""⟩, []⟩
      = [⟨"LITELLM_LOG", "INFO", none⟩,
         ⟨"OLLAMA_API_KEY", "", some ⟨"api-key-secrets", "OLLAMA_API_KEY", some true⟩⟩] ∧
    (AG.generateAiGatewayConfig ⟨"gw", ⟨8000, [⟨"llama2", "ollama"⟩], ""⟩, []⟩).1
      = "model_list:\n- model_name: llama2\n  litellm_params:\n    model: ollama/llama2\n    api_key: os.environ/OLLAMA_API_KEY\nlitellm_settings:\n  request_timeout: 600\n" :=
  ⟨rfl, rfl⟩

/-- C5, amended: the fixed provider table (ollama → none, bedrock →
AWS_ACCESS_KEY_ID, unknown X → upper(X)_API_KEY) and the
ollama-contributes-nothing behavior hold in the ModelRouter/LiteLLM
generator; every Deployment environment entry there is the log variable or
a non-empty key of some model, and every model with a non-empty key
contributes it. The AiGateway controller instead maps every provider,
ollama and bedrock included, to upper(provider)_API_KEY. -/
theorem C5_provider_mapping_amended :
    (MR.providerApiKeyTable "openai" = "OPENAI_API_KEY" ∧
     MR.providerApiKeyTable "azure" = "AZURE_API_KEY" ∧
     MR.providerApiKeyTable "gemini" = "GEMINI_API_KEY" ∧
     MR.providerApiKeyTable "anthropic" = "ANTHROPIC_API_KEY" ∧
     MR.providerApiKeyTable "bedrock" = "AWS_ACCESS_KEY_ID" ∧
     MR.providerApiKeyTable "ollama" = "" ∧
     MR.providerApiKeyTable "huggingface" = "HUGGINGFACE_API_KEY") ∧
    (∀ p : String,
      p ∉ ["openai", "azure", "gemini", "anthropic", "bedrock", "ollama", "huggingface"] →
      MR.providerApiKeyTable p = upperStr p ++ "_API_KEY") ∧
    (∀ s : String, s.data ≠ [] →
      lowerStr ⟨s.data.takeWhile (fun c => c ≠ '/')⟩
        ∉ ["openai", "azure", "gemini", "anthropic", "bedrock", "ollama", "huggingface"] →
      (MR.mapModelToLiteLLMFormat s).2
        = upperStr ⟨s.data.takeWhile (fun c => c ≠ '/')⟩ ++ "_API_KEY") ∧
    (∀ (r : MR.ModelRouter) (e : EnvVar), e ∈ MR.buildEnvironmentVariables r →
      e.name = "LITELLM_LOG" ∨
        ∃ m ∈ r.spec.aiModels,
          (MR.mapModelToLiteLLMFormat m.name).2 = e.name ∧ e.name ≠ "") ∧
    (∀ (r : MR.ModelRouter) (m : MR.AiModel), r.spec.type = "litellm" →
      m ∈ r.spec.aiModels → (MR.mapModelToLiteLLMFormat m.name).2 ≠ "" →
      mkSecretEnvVar (MR.mapModelToLiteLLMFormat m.name).2 ∈ MR.buildEnvironmentVariables r) ∧
    (∀ m : AG.AiModel, AG.getProviderApiKeyEnvVar m = upperStr m.provider ++ "_API_KEY") := by
  have htable : ∀ p : String,
      p ∉ ["openai", "azure", "gemini", "anthropic", "bedrock", "ollama", "huggingface"] →
      MR.providerApiKeyTable p = upperStr p ++ "_API_KEY" := by
    intro p h
    simp only [List.mem_cons, List.mem_singleton, not_or] at h
    obtain ⟨h1, h2, h3, h4, h5, h6, h7⟩ := h
    simp [MR.providerApiKeyTable, h1, h2, h3, h4, h5, h6, h7]
  refine ⟨⟨rfl, rfl, rfl, rfl, rfl, rfl, rfl⟩, htable, ?_, ?_, ?_, fun _ => rfl⟩
  · intro s hs hmem
    have hmap : (MR.mapModelToLiteLLMFormat s).2
        = MR.providerApiKeyTable (lowerStr ⟨s.data.takeWhile (fun c => c ≠ '/')⟩) := by
      simp [MR.mapModelToLiteLLMFormat, hs]
    rw [hmap, htable _ hmem, upperStr_lowerStr]
  · intro r e he
    unfold MR.buildEnvironmentVariables at he
    cases hgen : MR.NewModelRouterGenerator r.spec.type with
    | some err =>
        rw [hgen] at he
        left
        rcases List.mem_singleton.mp he with rfl
        rfl
    | none =>
        rw [hgen] at he
        rcases List.mem_append.mp he with hbase | hmapd
        · left
          rcases List.mem_singleton.mp hbase with rfl
          rfl
        · right
          rcases List.mem_map.mp hmapd with ⟨n, hn, rfl⟩
          rcases mem_of_mem_dedupKeys _ _ hn with ⟨hkeys, hne⟩
          rcases List.mem_map.mp hkeys with ⟨m, hm, hmn⟩
          exact ⟨m, hm, by rw [hmn]; exact ⟨rfl, hne⟩⟩
  · intro r m htype hm hne
    unfold MR.buildEnvironmentVariables
    have hgen : MR.NewModelRouterGenerator r.spec.type = none := by
      simp [MR.NewModelRouterGenerator, htype]
    rw [hgen]
    refine List.mem_append_right _ (List.mem_map.mpr ⟨_, ?_, rfl⟩)
    exact mem_dedupKeys_of_mem _ _ hne
      (List.mem_map.mpr ⟨m, hm, rfl⟩)

/-- Witness for C5's amended statement: a custom provider maps to
CUSTOM_API_KEY, and an openai model contributes OPENAI_API_KEY to the
ModelRouter Deployment environment. -/
theorem C5_provider_mapping_witness :
    (MR.mapModelToLiteLLMFormat "custom/my-model").2 = "CUSTOM_API_KEY" ∧
    mkSecretEnvVar (MR.mapModelToLiteLLMFormat "openai/gpt-4").2
      ∈ MR.buildEnvironmentVariables ⟨"rt", ⟨"litellm", 4000, [⟨"openai/gpt-4"⟩]⟩, []⟩ := by
  constructor
  · have h := C5_provider_mapping_amended.2.2.1 "custom/my-model" (by decide) (by decide)
    rw [h]
    rfl
  · exact C5_provider_mapping_amended.2.2.2.2.1
      ⟨"rt", ⟨"litellm", 4000, [⟨"openai/gpt-4"⟩]⟩, []⟩ ⟨"openai/gpt-4"⟩ rfl
      (List.mem_singleton.mpr rfl) (by decide)

/-! ### Foreign labels and the set of compared Deployment fields -/

/-- C6: evaluation at the failing input. In the ModelRouter controller an
existing Deployment that matches the desired one except for one foreign
label (`foo=bar`) fails the strict `LabelsEqual` check, so the second run
issues a spurious update whose merged object drops the foreign label. The
AiGateway controller, as documented, tolerates the same foreign label:
no update, label preserved. -/
theorem C6_foreign_label_eval :
    (MR.reconcileDeployment ⟨"rt", ⟨"litellm", 4000, [⟨"openai/gpt-4"⟩]⟩, []⟩ "h"
        (some { MR.desiredDeployment ⟨"rt", ⟨"litellm", 4000, [⟨"openai/gpt-4"⟩]⟩, []⟩ "h" with
                labels := some [("app", "rt"), ("type", "litellm"),
                                (configHashAnnKey, "h"), ("foo", "bar")] })
        noFaults).writes = [Write.updateDeployment] ∧
    lookupGo
      (MR.mergedDeployment
        (MR.desiredDeployment ⟨"rt", ⟨"litellm", 4000, [⟨"openai/gpt-4"⟩]⟩, []⟩ "h")).labels
      "foo" = none ∧
    AG.reconcileDeployment ⟨"gw", ⟨8000, [⟨"gpt-4", "openai"⟩], ""⟩, []⟩ "h"
        (some { AG.desiredDeployment ⟨"gw", ⟨8000, [⟨"gpt-4", "openai"⟩], ""⟩, []⟩ "h" with
                labels := some [("app", "gw"), ("foo", "bar")] })
        noFaults
      = ⟨some { AG.desiredDeployment ⟨"gw", ⟨8000, [⟨"gpt-4", "openai"⟩], ""⟩, []⟩ "h" with
                labels := some [("app", "gw"), ("foo", "bar")] }, [], none⟩ :=
  ⟨rfl, rfl, rfl⟩

/-- C7, counterexample: an existing Deployment that differs from the desired
one only in its replica count (3 instead of 1) passes every comparison of
the AiGateway `reconcileDeployment` — no update is issued, the field
difference survives the pass. -/
theorem C7_uncompared_field_counterexample :
    AG.reconcileDeployment ⟨"gw", ⟨8000, [⟨"gpt-4", "openai"⟩], ""⟩, []⟩ "h"
        (some { AG.desiredDeployment ⟨"gw", ⟨8000, [⟨"gpt-4", "openai"⟩], ""⟩, []⟩ "h" with
                replicas := 3 })
        noFaults
      = ⟨some { AG.desiredDeployment ⟨"gw", ⟨8000, [⟨"gpt-4", "openai"⟩], ""⟩, []⟩ "h" with
                replicas := 3 }, [], none⟩ ∧
    ({ AG.desiredDeployment ⟨"gw", ⟨8000, [⟨"gpt-4", "openai"⟩], ""⟩, []⟩ "h" with
       replicas := 3 }).replicas
      ≠ (AG.desiredDeployment ⟨"gw", ⟨8000, [⟨"gpt-4", "openai"⟩], ""⟩, []⟩ "h").replicas :=
  ⟨rfl, by decide⟩

/-- C7, amended: the AiGateway Deployment step issues an update exactly when
one of the compared fields differs — the required labels, the template
labels, the config-hash annotation, the container environment, the image,
or the leading container port; a difference confined to the uncompared
fields (replicas, command, volumes, volume mounts) is left in place with no
update. -/
theorem C7_update_on_compared_fields_amended :
    (∀ (g : AG.AiGateway) (hash : String) (ex : DeploymentObj),
       AG.needsUpdateDeployment ex (AG.desiredDeployment g hash) hash = false →
       AG.reconcileDeployment g hash (some ex) noFaults = ⟨some ex, [], none⟩) ∧
    (∀ (g : AG.AiGateway) (hash : String) (ex : DeploymentObj),
       AG.needsUpdateDeployment ex (AG.desiredDeployment g hash) hash = true →
       AG.reconcileDeployment g hash (some ex) noFaults
         = ⟨some (AG.mergedDeployment ex (AG.desiredDeployment g hash)),
            [Write.updateDeployment], none⟩) ∧
    (∀ (g : AG.AiGateway) (hash : String) (ex : DeploymentObj),
       RequiredLabelsPresent ex.labels (some [("app", g.name)]) = false →
       AG.needsUpdateDeployment ex (AG.desiredDeployment g hash) hash = true) ∧
    (∀ (g : AG.AiGateway) (hash : String) (ex : DeploymentObj),
       ex.template.annotations = none ∨ getGo ex.template.annotations configHashAnnKey ≠ hash →
       AG.needsUpdateDeployment ex (AG.desiredDeployment g hash) hash = true) ∧
    (∀ (g : AG.AiGateway) (hash : String) (ex : DeploymentObj),
       0 < ex.template.spec.containers.length →
       EnvVarsEqual (ex.template.spec.containers.getD 0 default).env
         (AG.buildEnvironmentVariables g) = false →
       AG.needsUpdateDeployment ex (AG.desiredDeployment g hash) hash = true) ∧
    (∀ (g : AG.AiGateway) (hash : String) (ex : DeploymentObj),
       0 < ex.template.spec.containers.length →
       (ex.template.spec.containers.getD 0 default).image
         ≠ "ghcr.io/berriai/litellm:v1.77.2-stable" →
       AG.needsUpdateDeployment ex (AG.desiredDeployment g hash) hash = true) ∧
    (∀ (g : AG.AiGateway) (hash : String) (ex : DeploymentObj),
       0 < ex.template.spec.containers.length →
       (ex.template.spec.containers.getD 0 default).ports.length ≠ 1 →
       AG.needsUpdateDeployment ex (AG.desiredDeployment g hash) hash = true) ∧
    (∀ (g : AG.AiGateway) (hash : String) (rep : Int) (cmd : List String)
       (vm : List VolumeMount) (vols : List Volume),
       AG.reconcileDeployment g hash
         (some { AG.desiredDeployment g hash with
                 replicas := rep,
                 template := { (AG.desiredDeployment g hash).template with
                               spec := { containers :=
                                           [{ ((AG.desiredDeployment g hash).template.spec.containers.getD 0 default) with
                                              command := cmd, volumeMounts := vm }],
                                         volumes := vols } } })
         noFaults
         = ⟨some { AG.desiredDeployment g hash with
                   replicas := rep,
                   template := { (AG.desiredDeployment g hash).template with
                                 spec := { containers :=
                                             [{ ((AG.desiredDeployment g hash).template.spec.containers.getD 0 default) with
                                                command := cmd, volumeMounts := vm }],
                                           volumes := vols } } }, [], none⟩) := by
  refine ⟨?_, ?_, ?_, ?_, ?_, ?_, ?_, ?_⟩
  · intro g hash ex h
    simp [AG.reconcileDeployment, noFaults, h]
  · intro g hash ex h
    simp [AG.reconcileDeployment, noFaults, h]
  · intro g hash ex h
    simp [AG.needsUpdateDeployment, AG.desiredDeployment, h]
  · intro g hash ex h
    rcases h with h | h
    · simp [AG.needsUpdateDeployment, AG.desiredDeployment, h]
    · cases hann : ex.template.annotations with
      | none => simp [AG.needsUpdateDeployment, AG.desiredDeployment, hann]
      | some l =>
          rw [hann] at h
          simp only [getGo, lookupGo] at h
          simp [AG.needsUpdateDeployment, AG.desiredDeployment, hann, h]
  · intro g hash ex hlen h
    simp only [List.getD_eq_getElem?_getD] at h
    rw [List.getElem?_eq_getElem hlen, Option.getD_some] at h
    simp [AG.needsUpdateDeployment, AG.desiredDeployment, hlen, h]
  · intro g hash ex hlen h
    simp only [List.getD_eq_getElem?_getD] at h
    rw [List.getElem?_eq_getElem hlen, Option.getD_some] at h
    simp [AG.needsUpdateDeployment, AG.desiredDeployment, hlen, h]
  · intro g hash ex hlen h
    simp only [List.getD_eq_getElem?_getD] at h
    rw [List.getElem?_eq_getElem hlen, Option.getD_some] at h
    simp [AG.needsUpdateDeployment, AG.desiredDeployment, hlen, h]
  · intro g hash rep cmd vm vols
    have hfalse : AG.needsUpdateDeployment
        { AG.desiredDeployment g hash with
          replicas := rep,
          template := { (AG.desiredDeployment g hash).template with
                        spec := { containers :=
                                    [{ ((AG.desiredDeployment g hash).template.spec.containers.getD 0 default) with
                                       command := cmd, volumeMounts := vm }],
                                  volumes := vols } } }
        (AG.desiredDeployment g hash) hash = false := by
      simp [AG.needsUpdateDeployment, AG.desiredDeployment,
        RequiredLabelsPresent_self_singleton, EnvVarsEqual_refl, lookupL]
    simp only [List.getD_eq_getElem?_getD] at hfalse
    simp [AG.reconcileDeployment, noFaults, hfalse]

/-- Witness for C7's amended statement: a Deployment whose pod template
lost its annotations is flagged for update. -/
theorem C7_update_on_compared_fields_witness :
    AG.needsUpdateDeployment
      { AG.desiredDeployment ⟨"gw", ⟨8000, [⟨"gpt-4", "openai"⟩], ""⟩, []⟩ "h" with
        template :=
          { (AG.desiredDeployment ⟨"gw", ⟨8000, [⟨"gpt-4", "openai"⟩], ""⟩, []⟩ "h").template with
            annotations := none } }
      (AG.desiredDeployment ⟨"gw", ⟨8000, [⟨"gpt-4", "openai"⟩], ""⟩, []⟩ "h") "h" = true :=
  C7_update_on_compared_fields_amended.2.2.2.1 _ "h" _ (Or.inl rfl)

end Gateway
